import Mathlib

/-!
# Verification of the Trust & Safety case-study core

Shallow embedding of the three core components of the repository
`trust_safety_case_study` (files `src/data_gen.py`, `src/quality_checks.py`,
`src/anomaly.py`, `src/config.py`):

* the hierarchical stochastic generator `generate_dataframe`;
* the invariant validator `run_checks`;
* the rolling z-score anomaly detector `detect_zscore_anomalies` /
  `detect_anomalies`.

Modelling conventions:

* Python/numpy floats are modelled by exact rationals together with the
  special values `nan`, `inf`, `-inf` (type `Fl`).  None of the verified
  properties depends on floating-point rounding: the generator's counts are
  integers and the claims about derived columns concern only definedness,
  exact integer identities and order comparisons.
* numpy's global random state is modelled by an explicit state value `Rng`
  threaded through the computation (the Python code mutates `np.random`'s
  global state seeded once in `config.py`).  The numpy sampling primitives
  (`np.random.uniform`, `np.random.normal`, `np.random.multinomial`) are not
  part of the repository; they are modelled by deterministic functions of the
  state that satisfy their documented contracts: `uniform lo hi` returns a
  value in `[lo, hi]` (when `lo ≤ hi`), `normal` returns a bounded sample of
  its scale parameter, and `multinomial n p` returns a vector of naturals of
  the same length as `p` summing to `n`.  The verified claims depend only on
  these contracts, never on the distributions.
* Dates are day numbers (integers); `pd.date_range(start, end, freq="D")`
  is the inclusive integer range.
* The module constants of `config.py` (read as globals by
  `generate_dataframe`) are gathered in an explicit `GenConfig` parameter;
  `defaultConfig` below holds the concrete values of `config.py`.
* `int(x)` in Python truncates toward zero: `truncQ` below.
-/

/-- IEEE-float-like value: `nan`, infinities, or an exact rational. -/
inductive Fl where
  | nan : Fl
  | inf : Fl
  | ninf : Fl
  | num : ℚ → Fl
  deriving DecidableEq, Repr

/-- Python `int(q)`: truncation toward zero. -/
def truncQ (q : ℚ) : ℤ := if 0 ≤ q then ⌊q⌋ else -⌊-q⌋

/-- `np.clip x lo hi = min (max x lo) hi`. -/
def npClip (x lo hi : ℚ) : ℚ := min (max x lo) hi

/-- Python `round(q, 1)` (rounding to one decimal; Python uses
round-half-to-even at exact midpoints, a detail no verified property
depends on). -/
def round1 (q : ℚ) : ℚ := (round (10 * q) : ℤ) / 10

/-- Float division `x / y` of pandas/numpy on plain (non-replaced)
denominators: `0/0 = nan`, `x/0 = ±inf` for `x ≠ 0`. -/
def fldiv (x y : ℚ) : Fl :=
  if y = 0 then (if x = 0 then .nan else if 0 < x then .inf else .ninf)
  else .num (x / y)

/-- Division after `denominator.replace(0, np.nan)`: a zero denominator
becomes `nan` and the quotient is then `nan`. -/
def fldivRepl (x y : ℚ) : Fl := if y = 0 then .nan else .num (x / y)

/-- The explicit random-state value standing for numpy's global RNG
(a 64-bit linear congruential state; the particular update function is
irrelevant to every verified property). -/
structure Rng where
  state : ℕ
  deriving DecidableEq, Repr

def Rng.ofSeed (n : ℕ) : Rng := ⟨n⟩

def Rng.next (r : Rng) : ℕ × Rng :=
  let s := (6364136223846793005 * r.state + 1442695040888963407) % (2 ^ 64)
  (s, ⟨s⟩)

/-- A draw `< n` (for `n > 0`), used by the multinomial model. -/
def Rng.natLt (r : Rng) (n : ℕ) : ℕ × Rng :=
  let p := r.next
  (if n = 0 then 0 else p.1 % n, p.2)

/-- Model of `np.random.uniform(lo, hi)`: a value in `[lo, hi]` when
`lo ≤ hi` (granularity 1/1000, irrelevant to the verified properties). -/
def Rng.uniform (r : Rng) (lo hi : ℚ) : ℚ × Rng :=
  let p := r.next
  (lo + (hi - lo) * ((p.1 % 1001 : ℕ) : ℚ) / 1000, p.2)

/-- Model of `np.random.normal(0, sigma)`: a bounded sample in
`[-sigma, sigma]` for `sigma ≥ 0` (the true sampler is unbounded; only
boundedness-in-scale is used, and only for sign reasoning on user counts). -/
def Rng.normalDraw (r : Rng) (sigma : ℚ) : ℚ × Rng :=
  let p := r.next
  (sigma * (((p.1 % 2001 : ℕ) : ℚ) - 1000) / 1000, p.2)

/-- Model of `np.random.multinomial(total, probs)` for a nonempty support:
a list of naturals of the same length as `probs` summing to `total`.
The probabilities influence only the (unmodelled) distribution, not the
support contract the program relies on. -/
def multinomialAux : ℕ → List ℚ → Rng → List ℕ × Rng
  | _, [], r => ([], r)
  | total, [_], r => ([total], r)
  | total, _ :: p2 :: ps, r =>
    let kp := r.natLt (total + 1)
    let rest := multinomialAux (total - kp.1) (p2 :: ps) kp.2
    (kp.1 :: rest.1, rest.2)

/-- `_multinomial_split` (`data_gen.py` lines 81–84): totals `≤ 0` yield an
all-zero split of the same shape without consuming randomness
(`np.zeros_like`); otherwise a multinomial draw (the Python code passes
`probs / probs.sum()`; normalisation only affects the distribution). -/
def multinomial_split (total : ℕ) (probs : List ℚ) (r : Rng) : List ℕ × Rng :=
  if total = 0 then (probs.map (fun _ => 0), r) else multinomialAux total probs r

/-- The six violation categories (`VIOLATION_CATEGORIES`, `data_gen.py`). -/
inductive Cat where
  | spam | harassment_hate | nudity | misinformation | child_safety | other
  deriving DecidableEq, Repr

def VIOLATION_CATEGORIES : List Cat :=
  [.spam, .harassment_hate, .nudity, .misinformation, .child_safety, .other]

/-- `BASE_CAT_P` (sums to 1). -/
def BASE_CAT_P : List ℚ := [0.40, 0.15, 0.12, 0.18, 0.02, 0.13]

/-- Day numbers count days since 2025-01-01 (day 0).
`MISINFO_EVENT_START = pd.Timestamp("2025-07-01")`. -/
def MISINFO_EVENT_START : ℤ := 181

/-- `MISINFO_EVENT_END = pd.Timestamp("2025-07-10")`. -/
def MISINFO_EVENT_END : ℤ := 190

/-- `SOURCE_MIX`: report source mix by category (user, ai, trusted). -/
def SOURCE_MIX : Cat → List ℚ
  | .spam => [0.20, 0.75, 0.05]
  | .harassment_hate => [0.55, 0.25, 0.20]
  | .nudity => [0.30, 0.65, 0.05]
  | .misinformation => [0.65, 0.20, 0.15]
  | .child_safety => [0.25, 0.35, 0.40]
  | .other => [0.60, 0.30, 0.10]

/-- `ENF_MIX`: enforcement type mix by category
(removal, warning, suspension, downrank). -/
def ENF_MIX : Cat → List ℚ
  | .spam => [0.60, 0.08, 0.02, 0.30]
  | .harassment_hate => [0.70, 0.15, 0.10, 0.05]
  | .nudity => [0.80, 0.10, 0.05, 0.05]
  | .misinformation => [0.30, 0.20, 0.00, 0.50]
  | .child_safety => [0.85, 0.00, 0.15, 0.00]
  | .other => [0.50, 0.25, 0.05, 0.20]

/-- `ENF_RATE_BY_CAT`: enforcement rate range by category. -/
def ENF_RATE_BY_CAT : Cat → ℚ × ℚ
  | .spam => (0.65, 0.85)
  | .harassment_hate => (0.70, 0.90)
  | .nudity => (0.75, 0.95)
  | .misinformation => (0.45, 0.70)
  | .child_safety => (0.90, 0.99)
  | .other => (0.55, 0.75)

/-- `APPEAL_SUCCESS_BY_CAT`: appeal success rate range by category. -/
def APPEAL_SUCCESS_BY_CAT : Cat → ℚ × ℚ
  | .spam => (0.05, 0.12)
  | .harassment_hate => (0.10, 0.25)
  | .nudity => (0.05, 0.10)
  | .misinformation => (0.18, 0.35)
  | .child_safety => (0.00, 0.02)
  | .other => (0.10, 0.20)

/-- `APPEAL_RATE_BY_CAT`: appeal likelihood range given enforcement. -/
def APPEAL_RATE_BY_CAT : Cat → ℚ × ℚ
  | .spam => (0.03, 0.08)
  | .harassment_hate => (0.06, 0.14)
  | .nudity => (0.04, 0.10)
  | .misinformation => (0.08, 0.18)
  | .child_safety => (0.01, 0.03)
  | .other => (0.05, 0.12)

/-- Per-country adjustment entry (`COUNTRY_ADJUSTMENTS` values in
`config.py`): an `appeal_success` multiplier and a `report_mult`
multiplier. -/
structure CountryAdj where
  appeal_success : ℚ
  report_mult : ℚ
  deriving DecidableEq, Repr

/-- The module constants of `config.py` consumed by `generate_dataframe`,
gathered as an explicit parameter (dates as day numbers since 2025-01-01). -/
structure GenConfig where
  startDate : ℤ
  endDate : ℤ
  countries : List String
  baseUsers : String → ℤ
  surgeStart : ℤ
  surgeEnd : ℤ
  respImprovePerDay : ℚ
  adjust : String → CountryAdj

/-- `SEED = 42` (`config.py`). -/
def SEED : ℕ := 42

/-- The concrete `config.py` values: dates 2025-03-01 .. 2025-08-31
(days 59 .. 242), surge 2025-05-10 .. 2025-05-19 (days 129 .. 138). -/
def defaultConfig : GenConfig where
  startDate := 59
  endDate := 242
  countries := ["Singapore", "Indonesia", "Philippines", "Thailand", "Vietnam"]
  baseUsers := fun c =>
    if c = "Singapore" then 50000
    else if c = "Indonesia" then 400000
    else if c = "Philippines" then 200000
    else if c = "Thailand" then 150000
    else if c = "Vietnam" then 180000
    else 0
  surgeStart := 129
  surgeEnd := 138
  respImprovePerDay := -0.02
  adjust := fun c =>
    if c = "Indonesia" then ⟨1.15, 1.05⟩
    else if c = "Singapore" then ⟨0.60, 0.95⟩
    else if c = "Philippines" then ⟨0.90, 1.00⟩
    else if c = "Thailand" then ⟨0.85, 0.98⟩
    else if c = "Vietnam" then ⟨0.95, 1.02⟩
    else ⟨1, 1⟩

/-- `_adjust_category_mix` (`data_gen.py` lines 69–79): boost spam (index 0)
by 1.35 inside the surge window, misinformation (index 3) by 1.50 inside the
misinfo event window, then renormalise. -/
def adjust_category_mix (cfg : GenConfig) (day : ℤ) : List ℚ :=
  let p0 := BASE_CAT_P
  let p1 := if cfg.surgeStart ≤ day ∧ day ≤ cfg.surgeEnd
    then p0.set 0 (p0.getD 0 0 * 1.35) else p0
  let p2 := if MISINFO_EVENT_START ≤ day ∧ day ≤ MISINFO_EVENT_END
    then p1.set 3 (p1.getD 3 0 * 1.50) else p1
  p2.map (fun q => q / p2.sum)

/-- One raw generated row (the list appended at `data_gen.py` lines 166–176,
with the column names of lines 178–185). -/
structure RawRow where
  date : ℤ
  country : String
  active_users : ℤ
  content_created : ℤ
  reports : ℕ
  enforcements : ℕ
  appeals : ℕ
  successful_appeals : ℕ
  median_response_time_hours : ℚ
  reports_spam : ℕ
  reports_harassment_hate : ℕ
  reports_nudity : ℕ
  reports_misinformation : ℕ
  reports_child_safety : ℕ
  reports_other : ℕ
  reports_user : ℕ
  reports_ai : ℕ
  reports_trusted : ℕ
  enf_removed : ℕ
  enf_warning : ℕ
  enf_suspension : ℕ
  enf_downrank : ℕ
  deriving DecidableEq, Repr

/-- The per-cell accumulators initialised at `data_gen.py` lines 115–119:
source totals, enforcement-type totals, and the enforcement/appeal chain. -/
structure CellAcc where
  ru : ℕ
  ra : ℕ
  rt : ℕ
  er : ℕ
  ew : ℕ
  es : ℕ
  ed : ℕ
  enf : ℕ
  app : ℕ
  suc : ℕ
  deriving DecidableEq, Repr

def CellAcc.zero : CellAcc := ⟨0, 0, 0, 0, 0, 0, 0, 0, 0, 0⟩

/-- The body of the per-category loop (`data_gen.py` lines 121–160): skip
zero-count categories, split the count into sources, draw the enforcement
rate and split the enforced count into enforcement types, draw appeals, and
draw successful appeals with the source-mix adjustment. -/
def catStep (cat : Cat) (count : ℕ) (acc : CellAcc) (r0 : Rng) : CellAcc × Rng :=
  if count = 0 then (acc, r0) else
  let sp := multinomial_split count (SOURCE_MIX cat) r0
  let srcCounts := sp.1
  let su := srcCounts.getD 0 0
  let sa := srcCounts.getD 1 0
  let st := srcCounts.getD 2 0
  let ep := sp.2.uniform (ENF_RATE_BY_CAT cat).1 (ENF_RATE_BY_CAT cat).2
  let enfs : ℕ := (truncQ ((count : ℚ) * ep.1)).toNat
  let tp := multinomial_split enfs (ENF_MIX cat) ep.2
  let eCounts := tp.1
  let ap := tp.2.uniform (APPEAL_RATE_BY_CAT cat).1 (APPEAL_RATE_BY_CAT cat).2
  let appeals : ℕ := (truncQ ((enfs : ℚ) * ap.1)).toNat
  let srcSum : ℕ := su + sa + st
  let srcAdj : ℚ :=
    if 0 < srcSum then
      npClip (1 + 0.15 * ((su : ℚ) / (srcSum : ℚ)) - 0.10 * ((st : ℚ) / (srcSum : ℚ))) 0.5 1.3
    else 1
  let sq := ap.2.uniform (APPEAL_SUCCESS_BY_CAT cat).1 (APPEAL_SUCCESS_BY_CAT cat).2
  let succRate : ℚ := npClip (sq.1 * srcAdj) 0 1
  let succ : ℕ := (truncQ ((appeals : ℚ) * succRate)).toNat
  ({ ru := acc.ru + su, ra := acc.ra + sa, rt := acc.rt + st,
     er := acc.er + eCounts.getD 0 0, ew := acc.ew + eCounts.getD 1 0,
     es := acc.es + eCounts.getD 2 0, ed := acc.ed + eCounts.getD 3 0,
     enf := acc.enf + enfs, app := acc.app + appeals, suc := acc.suc + succ }, sq.2)

/-- The loop `for cat, count in cat_map.items()` (`data_gen.py` line 121):
a left fold of `catStep` over the category/count pairs in declared
category order (Python dict insertion order). -/
def catFold : List (Cat × ℕ) → CellAcc → Rng → CellAcc × Rng
  | [], acc, r => (acc, r)
  | p :: rest, acc, r =>
    let q := catStep p.1 p.2 acc r
    catFold rest q.1 q.2

/-- One (day, country) cell (`data_gen.py` lines 98–176): sample users,
content, the report rate with country/surge multipliers, split reports by
category, run the per-category loop, and draw the response time. -/
def genCell (cfg : GenConfig) (day : ℤ) (baseResp : ℚ) (catP : List ℚ)
    (c : String) (r0 : Rng) : RawRow × Rng :=
  let np := r0.normalDraw ((cfg.baseUsers c : ℚ) * 0.05)
  let users : ℤ := cfg.baseUsers c + truncQ np.1
  let up := np.2.uniform 0.02 0.05
  let content : ℤ := truncQ ((users : ℚ) * up.1)
  let rp := up.2.uniform 0.009 0.015
  let mult0 : ℚ := (cfg.adjust c).report_mult
  let mult : ℚ := if cfg.surgeStart ≤ day ∧ day ≤ cfg.surgeEnd then mult0 * 1.8 else mult0
  let reports : ℕ := (truncQ ((content : ℚ) * rp.1 * mult)).toNat
  let cp := multinomial_split reports catP rp.2
  let catCounts := cp.1
  let fp := catFold (VIOLATION_CATEGORIES.zip catCounts) CellAcc.zero cp.2
  let acc := fp.1
  let tp := fp.2.uniform (baseResp - 4) (baseResp + 4)
  let respTime : ℚ := npClip (round1 tp.1) 6 36
  ({ date := day, country := c, active_users := users, content_created := content,
     reports := reports, enforcements := acc.enf, appeals := acc.app,
     successful_appeals := acc.suc, median_response_time_hours := respTime,
     reports_spam := catCounts.getD 0 0, reports_harassment_hate := catCounts.getD 1 0,
     reports_nudity := catCounts.getD 2 0, reports_misinformation := catCounts.getD 3 0,
     reports_child_safety := catCounts.getD 4 0, reports_other := catCounts.getD 5 0,
     reports_user := acc.ru, reports_ai := acc.ra, reports_trusted := acc.rt,
     enf_removed := acc.er, enf_warning := acc.ew, enf_suspension := acc.es,
     enf_downrank := acc.ed }, tp.2)

/-- The inner `for c in COUNTRIES` loop for one day. -/
def genCountries (cfg : GenConfig) (day : ℤ) (baseResp : ℚ) (catP : List ℚ) :
    List String → Rng → List RawRow × Rng
  | [], r => ([], r)
  | c :: cs, r =>
    let p := genCell cfg day baseResp catP c r
    let q := genCountries cfg day baseResp catP cs p.2
    (p.1 :: q.1, q.2)

/-- The outer `for day in days` loop: the response-time baseline
`max(6, 24 + RESPONSE_IMPROVE_PER_DAY * (day - days[0]).days)` and the
day's category mix are computed once per day. -/
def genDays (cfg : GenConfig) (day0 : ℤ) : List ℤ → Rng → List RawRow × Rng
  | [], r => ([], r)
  | d :: ds, r =>
    let baseResp : ℚ := max 6 (24 + cfg.respImprovePerDay * ((d - day0 : ℤ) : ℚ))
    let p := genCountries cfg d baseResp (adjust_category_mix cfg d) cfg.countries r
    let q := genDays cfg day0 ds p.2
    (p.1 ++ q.1, q.2)

/-- `pd.date_range(start, end, freq="D")` as an inclusive integer range. -/
def dayRange (a b : ℤ) : List ℤ := (List.range (b + 1 - a).toNat).map (fun k => a + k)

/-- All raw rows of one generation run. -/
def generateRaw (cfg : GenConfig) (r : Rng) : List RawRow :=
  (genDays cfg cfg.startDate (dayRange cfg.startDate cfg.endDate) r).1

/-- A fully generated row: the raw columns plus the derived KPI and share
columns of the single vectorized pass (`data_gen.py` lines 187–198). -/
structure FullRow where
  date : ℤ
  country : String
  active_users : ℤ
  content_created : ℤ
  reports : ℕ
  enforcements : ℕ
  appeals : ℕ
  successful_appeals : ℕ
  median_response_time_hours : ℚ
  reports_spam : ℕ
  reports_harassment_hate : ℕ
  reports_nudity : ℕ
  reports_misinformation : ℕ
  reports_child_safety : ℕ
  reports_other : ℕ
  reports_user : ℕ
  reports_ai : ℕ
  reports_trusted : ℕ
  enf_removed : ℕ
  enf_warning : ℕ
  enf_suspension : ℕ
  enf_downrank : ℕ
  report_rate : Fl
  enforcement_rate : Fl
  appeal_rate : Fl
  appeal_success_rate : Fl
  share_spam : Fl
  share_harassment_hate : Fl
  share_nudity : Fl
  share_misinformation : Fl
  share_child_safety : Fl
  share_other : Fl
  share_user : Fl
  share_ai : Fl
  share_trusted : Fl
  deriving DecidableEq, Repr

/-- The derived-column pass (`data_gen.py` lines 187–198):
`report_rate = reports / content_created` (plain division),
the other three rates divide by a `.replace(0, np.nan)` denominator,
and every share divides a count by `reports.replace(0, np.nan)`. -/
def addDerived (r : RawRow) : FullRow :=
  { date := r.date, country := r.country, active_users := r.active_users,
    content_created := r.content_created, reports := r.reports,
    enforcements := r.enforcements, appeals := r.appeals,
    successful_appeals := r.successful_appeals,
    median_response_time_hours := r.median_response_time_hours,
    reports_spam := r.reports_spam, reports_harassment_hate := r.reports_harassment_hate,
    reports_nudity := r.reports_nudity, reports_misinformation := r.reports_misinformation,
    reports_child_safety := r.reports_child_safety, reports_other := r.reports_other,
    reports_user := r.reports_user, reports_ai := r.reports_ai,
    reports_trusted := r.reports_trusted, enf_removed := r.enf_removed,
    enf_warning := r.enf_warning, enf_suspension := r.enf_suspension,
    enf_downrank := r.enf_downrank,
    report_rate := fldiv (r.reports : ℚ) (r.content_created : ℚ),
    enforcement_rate := fldivRepl (r.enforcements : ℚ) (r.reports : ℚ),
    appeal_rate := fldivRepl (r.appeals : ℚ) (r.enforcements : ℚ),
    appeal_success_rate := fldivRepl (r.successful_appeals : ℚ) (r.appeals : ℚ),
    share_spam := fldivRepl (r.reports_spam : ℚ) (r.reports : ℚ),
    share_harassment_hate := fldivRepl (r.reports_harassment_hate : ℚ) (r.reports : ℚ),
    share_nudity := fldivRepl (r.reports_nudity : ℚ) (r.reports : ℚ),
    share_misinformation := fldivRepl (r.reports_misinformation : ℚ) (r.reports : ℚ),
    share_child_safety := fldivRepl (r.reports_child_safety : ℚ) (r.reports : ℚ),
    share_other := fldivRepl (r.reports_other : ℚ) (r.reports : ℚ),
    share_user := fldivRepl (r.reports_user : ℚ) (r.reports : ℚ),
    share_ai := fldivRepl (r.reports_ai : ℚ) (r.reports : ℚ),
    share_trusted := fldivRepl (r.reports_trusted : ℚ) (r.reports : ℚ) }

/-- `generate_dataframe` (`data_gen.py` lines 86–200): generate all raw rows
day by day, country by country, then apply the derived-column pass.  The
table is fully determined by the configuration and the random state. -/
def generate_dataframe (cfg : GenConfig) (r : Rng) : List FullRow :=
  (generateRaw cfg r).map addDerived

/-- A pandas cell value as seen by the validator: a float, a string
(country), or a date (day number). -/
inductive PVal where
  | fl : Fl → PVal
  | str : String → PVal
  | dint : ℤ → PVal
  deriving DecidableEq, Repr

/-- A dynamically-columned table, as `run_checks` receives it: a column-name
list, a row count, and cell access by column name and row index. -/
structure PDF where
  cols : List String
  nrows : ℕ
  cell : String → ℕ → PVal

/-- Numeric view of a cell (the validator applies numeric operations only to
columns that hold floats). -/
def PVal.toFl : PVal → Fl
  | .fl f => f
  | _ => .nan

/-- numpy/pandas comparison `x < q` (comparisons with `nan` are false). -/
def Fl.ltQ : Fl → ℚ → Bool
  | .num a, q => decide (a < q)
  | .ninf, _ => true
  | _, _ => false

/-- pandas `Series.between lo hi` on one value (false on `nan` and `±inf`). -/
def Fl.between (f : Fl) (lo hi : ℚ) : Bool :=
  match f with
  | .num a => decide (lo ≤ a ∧ a ≤ hi)
  | _ => false

/-- numpy/pandas comparison of two values (false whenever `nan` occurs). -/
def Fl.gt : Fl → Fl → Bool
  | .num a, .num b => decide (b < a)
  | .inf, .num _ => true
  | .inf, .ninf => true
  | .num _, .ninf => true
  | _, _ => false

/-- numpy/pandas comparison `x > q`. -/
def Fl.gtQ (f : Fl) (q : ℚ) : Bool := f.gt (.num q)

def Fl.isNan : Fl → Bool
  | .nan => true
  | _ => false

def Fl.toNum : Fl → Option ℚ
  | .num q => some q
  | _ => none

/-- pandas row-wise `sum` with the default `skipna=True`: `nan` entries are
dropped (an all-`nan` row sums to 0), opposite infinities give `nan`. -/
def flSum (l : List Fl) : Fl :=
  if l.contains .inf ∧ l.contains .ninf then .nan
  else if l.contains .inf then .inf
  else if l.contains .ninf then .ninf
  else .num (l.filterMap Fl.toNum).sum

/-- `np.isclose a b (atol) (rtol)` (with numpy's asymmetric tolerance
`|a - b| ≤ atol + rtol * |b|`; equal infinities are close, `nan` never is). -/
def flIsClose (a b : Fl) (atol rtol : ℚ) : Bool :=
  match a, b with
  | .num x, .num y => decide (|x - y| ≤ atol + rtol * |y|)
  | .inf, .inf => true
  | .ninf, .ninf => true
  | _, _ => false

/-- `required` (`quality_checks.py` lines 25–41). -/
def requiredCols : List String :=
  ["date", "country", "active_users", "content_created", "reports", "enforcements",
   "appeals", "successful_appeals", "median_response_time_hours",
   "reports_spam", "reports_harassment_hate", "reports_nudity", "reports_misinformation",
   "reports_child_safety", "reports_other",
   "reports_user", "reports_ai", "reports_trusted",
   "enf_removed", "enf_warning", "enf_suspension", "enf_downrank",
   "report_rate", "enforcement_rate", "appeal_rate", "appeal_success_rate",
   "share_spam", "share_harassment_hate", "share_nudity", "share_misinformation",
   "share_child_safety", "share_other", "share_user", "share_ai", "share_trusted"]

def countColsCore : List String :=
  ["active_users", "content_created", "reports", "enforcements", "appeals",
   "successful_appeals"]

def countColsCat : List String :=
  ["reports_spam", "reports_harassment_hate", "reports_nudity",
   "reports_misinformation", "reports_child_safety", "reports_other"]

def countColsSrc : List String := ["reports_user", "reports_ai", "reports_trusted"]

def countColsEnf : List String :=
  ["enf_removed", "enf_warning", "enf_suspension", "enf_downrank"]

def rateCols : List String :=
  ["report_rate", "enforcement_rate", "appeal_rate", "appeal_success_rate"]

def shareColsCat : List String :=
  ["share_spam", "share_harassment_hate", "share_nudity", "share_misinformation",
   "share_child_safety", "share_other"]

def shareColsSrc : List String := ["share_user", "share_ai", "share_trusted"]

def msgMissing (missing : List String) : String :=
  "Missing required columns: " ++ String.intercalate ", " missing

def msgNegative (k : ℕ) : String :=
  "Negative counts found in " ++ toString k ++ " rows across one or more count columns."

def msgResponse (k : ℕ) : String :=
  "Response times out of [0,48] hours in " ++ toString k ++ " rows."

def msgRateBound (c : String) (k : ℕ) : String :=
  "Rate out of bounds in " ++ c ++ " for " ++ toString k ++ " rows."

def msgEnfGtReports (k : ℕ) : String :=
  "'enforcements' exceed 'reports' in " ++ toString k ++ " rows."

def msgAppGtEnf (k : ℕ) : String :=
  "'appeals' exceed 'enforcements' in " ++ toString k ++ " rows."

def msgSuccGtApp (k : ℕ) : String :=
  "'successful_appeals' exceed 'appeals' in " ++ toString k ++ " rows."

def msgCatSum (k : ℕ) : String :=
  "Category counts do not sum to 'reports' in " ++ toString k ++ " rows."

def msgSrcSum (k : ℕ) : String :=
  "Source counts do not sum to 'reports' in " ++ toString k ++ " rows."

def msgEnfSum (k : ℕ) : String :=
  "Enforcement-type counts do not sum to 'enforcements' in " ++ toString k ++ " rows."

def msgShareBound (c : String) (k : ℕ) : String :=
  "Share out of [0,1] in " ++ c ++ " for " ++ toString k ++ " rows."

def msgCatShare (k : ℕ) : String :=
  "Category shares do not sum to ~1 within tolerance in " ++ toString k ++ " rows."

def msgSrcShare (k : ℕ) : String :=
  "Source shares do not sum to ~1 within tolerance in " ++ toString k ++ " rows."

def msgDup (k : ℕ) : String :=
  "Duplicate (country, date) pairs found: " ++ toString k

/-- The float value of column `c` at row `i`. -/
def PDF.at (df : PDF) (c : String) (i : ℕ) : Fl := (df.cell c i).toFl

def rowIdx (df : PDF) : List ℕ := List.range df.nrows

/-- `run_checks` (`quality_checks.py` lines 4–131): the missing-column
short-circuit, then the fixed battery of checks accumulated in order.
It is a total function returning findings — data problems never raise. -/
def run_checks (df : PDF) (eps share_tol : ℚ) : List String :=
  let missing := requiredCols.filter (fun c => ! df.cols.contains c)
  if missing ≠ [] then [msgMissing missing] else
  let nonnegCols := countColsCore ++ countColsCat ++ countColsSrc ++ countColsEnf
  let negCount := (rowIdx df).countP (fun i => nonnegCols.any (fun c => (df.at c i).ltQ 0))
  let rtBad := (rowIdx df).countP
    (fun i => ! (df.at "median_response_time_hours" i).between 0 48)
  let rateMsgs := rateCols.flatMap (fun c =>
    let s := ((rowIdx df).map (fun i => df.at c i)).filter (fun f => ! f.isNan)
    let bad := s.countP (fun f => ! f.between 0 1)
    if s ≠ [] ∧ bad ≠ 0 then [msgRateBound c bad] else [])
  let enfGt := (rowIdx df).countP (fun i => (df.at "enforcements" i).gt (df.at "reports" i))
  let appGt := (rowIdx df).countP (fun i => (df.at "appeals" i).gt (df.at "enforcements" i))
  let sucGt := (rowIdx df).countP
    (fun i => (df.at "successful_appeals" i).gt (df.at "appeals" i))
  let catBad := (rowIdx df).countP (fun i =>
    ! flIsClose (flSum (countColsCat.map (fun c => df.at c i))) (df.at "reports" i) 0 0)
  let srcBad := (rowIdx df).countP (fun i =>
    ! flIsClose (flSum (countColsSrc.map (fun c => df.at c i))) (df.at "reports" i) 0 0)
  let enfBad := (rowIdx df).countP (fun i =>
    ! flIsClose (flSum (countColsEnf.map (fun c => df.at c i))) (df.at "enforcements" i) 0 0)
  let shareBoundMsgs := (shareColsCat ++ shareColsSrc).flatMap (fun c =>
    let s := ((rowIdx df).map (fun i => df.at c i)).filter (fun f => ! f.isNan)
    let bad := s.countP (fun f => ! f.between (0 - eps) (1 + eps))
    if s ≠ [] ∧ bad ≠ 0 then [msgShareBound c bad] else [])
  let posIdx := (rowIdx df).filter (fun i => (df.at "reports" i).gtQ 0)
  let shareSumMsgs :=
    if posIdx ≠ [] then
      let catShareBad := posIdx.countP (fun i =>
        ! flIsClose (flSum (shareColsCat.map (fun c => df.at c i))) (.num 1) share_tol 0)
      let srcShareBad := posIdx.countP (fun i =>
        ! flIsClose (flSum (shareColsSrc.map (fun c => df.at c i))) (.num 1) share_tol 0)
      (if catShareBad ≠ 0 then [msgCatShare catShareBad] else []) ++
        (if srcShareBad ≠ 0 then [msgSrcShare srcShareBad] else [])
    else []
  let dupCount := (rowIdx df).countP (fun i =>
    (List.range i).any (fun j =>
      decide (df.cell "country" j = df.cell "country" i ∧
        df.cell "date" j = df.cell "date" i)))
  (if negCount ≠ 0 then [msgNegative negCount] else []) ++
    (if rtBad ≠ 0 then [msgResponse rtBad] else []) ++
    rateMsgs ++
    (if enfGt ≠ 0 then [msgEnfGtReports enfGt] else []) ++
    (if appGt ≠ 0 then [msgAppGtEnf appGt] else []) ++
    (if sucGt ≠ 0 then [msgSuccGtApp sucGt] else []) ++
    (if catBad ≠ 0 then [msgCatSum catBad] else []) ++
    (if srcBad ≠ 0 then [msgSrcSum srcBad] else []) ++
    (if enfBad ≠ 0 then [msgEnfSum enfBad] else []) ++
    shareBoundMsgs ++ shareSumMsgs ++
    (if dupCount ≠ 0 then [msgDup dupCount] else [])

/-- The pandas cell of a generated row under its column name. -/
def fullRowCell (r : FullRow) : String → PVal
  | "date" => .dint r.date
  | "country" => .str r.country
  | "active_users" => .fl (.num (r.active_users : ℚ))
  | "content_created" => .fl (.num (r.content_created : ℚ))
  | "reports" => .fl (.num (r.reports : ℚ))
  | "enforcements" => .fl (.num (r.enforcements : ℚ))
  | "appeals" => .fl (.num (r.appeals : ℚ))
  | "successful_appeals" => .fl (.num (r.successful_appeals : ℚ))
  | "median_response_time_hours" => .fl (.num r.median_response_time_hours)
  | "reports_spam" => .fl (.num (r.reports_spam : ℚ))
  | "reports_harassment_hate" => .fl (.num (r.reports_harassment_hate : ℚ))
  | "reports_nudity" => .fl (.num (r.reports_nudity : ℚ))
  | "reports_misinformation" => .fl (.num (r.reports_misinformation : ℚ))
  | "reports_child_safety" => .fl (.num (r.reports_child_safety : ℚ))
  | "reports_other" => .fl (.num (r.reports_other : ℚ))
  | "reports_user" => .fl (.num (r.reports_user : ℚ))
  | "reports_ai" => .fl (.num (r.reports_ai : ℚ))
  | "reports_trusted" => .fl (.num (r.reports_trusted : ℚ))
  | "enf_removed" => .fl (.num (r.enf_removed : ℚ))
  | "enf_warning" => .fl (.num (r.enf_warning : ℚ))
  | "enf_suspension" => .fl (.num (r.enf_suspension : ℚ))
  | "enf_downrank" => .fl (.num (r.enf_downrank : ℚ))
  | "report_rate" => .fl r.report_rate
  | "enforcement_rate" => .fl r.enforcement_rate
  | "appeal_rate" => .fl r.appeal_rate
  | "appeal_success_rate" => .fl r.appeal_success_rate
  | "share_spam" => .fl r.share_spam
  | "share_harassment_hate" => .fl r.share_harassment_hate
  | "share_nudity" => .fl r.share_nudity
  | "share_misinformation" => .fl r.share_misinformation
  | "share_child_safety" => .fl r.share_child_safety
  | "share_other" => .fl r.share_other
  | "share_user" => .fl r.share_user
  | "share_ai" => .fl r.share_ai
  | "share_trusted" => .fl r.share_trusted
  | _ => .fl .nan

/-- A placeholder row for out-of-range index access (never reached on
in-range indices). -/
def dummyFullRow : FullRow :=
  { date := 0, country := "", active_users := 0, content_created := 0, reports := 0,
    enforcements := 0, appeals := 0, successful_appeals := 0,
    median_response_time_hours := 0, reports_spam := 0, reports_harassment_hate := 0,
    reports_nudity := 0, reports_misinformation := 0, reports_child_safety := 0,
    reports_other := 0, reports_user := 0, reports_ai := 0, reports_trusted := 0,
    enf_removed := 0, enf_warning := 0, enf_suspension := 0, enf_downrank := 0,
    report_rate := .nan, enforcement_rate := .nan, appeal_rate := .nan,
    appeal_success_rate := .nan, share_spam := .nan, share_harassment_hate := .nan,
    share_nudity := .nan, share_misinformation := .nan, share_child_safety := .nan,
    share_other := .nan, share_user := .nan, share_ai := .nan, share_trusted := .nan }

/-- A generated table as the dynamically-columned table the validator sees
(its columns are exactly the required ones, in dataframe order). -/
def toPDF (rows : List FullRow) : PDF :=
  { cols := requiredCols, nrows := rows.length,
    cell := fun c i => fullRowCell (rows.getD i dummyFullRow) c }

/-- The trailing window `series[max(0, i-window+1) .. i]` that pandas
`rolling(window, min_periods=1)` aggregates at position `i`. -/
def windowSlice (window : ℕ) (xs : List Fl) (i : ℕ) : List Fl :=
  (xs.take (i + 1)).drop (i + 1 - window)

/-- The non-`nan` observations of the window (pandas rolling aggregations
skip missing values). -/
def validObs (window : ℕ) (xs : List Fl) (i : ℕ) : List ℚ :=
  (windowSlice window xs i).filterMap Fl.toNum

/-- `series.rolling(window, min_periods=1).mean()` at position `i`:
defined as soon as one observation is present. -/
def rollMean (window : ℕ) (xs : List Fl) (i : ℕ) : Fl :=
  let v := validObs window xs i
  if v.length = 0 then .nan else .num (v.sum / (v.length : ℚ))

/-- The square of `series.rolling(window, min_periods=1).std()` at
position `i`: the sample variance (`ddof=1`), which needs at least two
observations — with a single observation the standard deviation is `nan`.
The standard deviation itself is an irrational square root; every verified
property observes it only through `= 0`, `= nan` and the threshold
comparison, all of which are exactly represented by its square. -/
def rollVar (window : ℕ) (xs : List Fl) (i : ℕ) : Fl :=
  let v := validObs window xs i
  if v.length < 2 then .nan
  else .num ((v.map (fun x => (x - v.sum / (v.length : ℚ)) ^ 2)).sum / ((v.length : ℚ) - 1))

/-- A z-score value `(x - mean) / std`, represented exactly by its sign and
its square `(x - mean)^2 / variance` (`std = sqrt variance` is irrational in
general; the pair `(sign, square)` determines the real value). -/
inductive Zsc where
  | nan : Zsc
  | val : ℤ → ℚ → Zsc
  deriving DecidableEq, Repr

/-- The z-score at position `i` (`anomaly.py` lines 11–13): the rolling
standard deviation has its zeros replaced by `nan`
(`.replace(0, np.nan)` — exactly the windows of zero sample variance),
and a `nan` in the value, the mean or the std makes the z-score `nan`. -/
def zscoreAt (window : ℕ) (xs : List Fl) (i : ℕ) : Zsc :=
  match xs.getD i .nan, rollMean window xs i, rollVar window xs i with
  | .num x, .num m, .num v =>
    if v = 0 then .nan
    else .val (if m < x then 1 else if x < m then -1 else 0) ((x - m) ^ 2 / v)
  | _, _, _ => .nan

/-- `zscores.abs() > threshold` at position `i` (`anomaly.py` line 14):
comparisons against a `nan` z-score are false; for a defined z-score,
`|z| > t` iff `z^2 > t * |t|`. -/
def anomalyAt (window : ℕ) (threshold : ℚ) (xs : List Fl) (i : ℕ) : Bool :=
  match zscoreAt window xs i with
  | .nan => false
  | .val _ sq => decide (threshold * |threshold| < sq)

/-- One row of `detect_zscore_anomalies`' result for one series position. -/
structure ZRow where
  value : Fl
  zscore : Zsc
  anomaly : Bool
  deriving DecidableEq, Repr

/-- `detect_zscore_anomalies` (`anomaly.py` lines 6–15): one result row per
input position, carrying the value, the z-score and the anomaly flag
(the rolling mean and rolling std are intermediates, not output columns). -/
def detect_zscore_anomalies (series : List Fl) (window : ℕ) (threshold : ℚ) :
    List ZRow :=
  (List.range series.length).map (fun i =>
    { value := series.getD i .nan, zscore := zscoreAt window series i,
      anomaly := anomalyAt window threshold series i })

/-- An input row of `detect_anomalies`: a country, a date and the metric
columns accessed by name (`s[col]`); share-column presence is probed
through the column list of the table. -/
structure ARow where
  country : String
  date : ℤ
  get : String → Fl

/-- The `detect_anomalies` input table. -/
structure ADF where
  cols : List String
  rows : List ARow

/-- `df["country"].unique()`: first-appearance order, no duplicates
(structural formulation with a seen-set accumulator). -/
def dedupFirstAux (seen : List String) : List String → List String
  | [] => []
  | x :: xs =>
    if x ∈ seen then dedupFirstAux seen xs
    else x :: dedupFirstAux (x :: seen) xs

def uniqueCountries (df : ADF) : List String :=
  dedupFirstAux [] (df.rows.map (·.country))

/-- The metrics `detect_anomalies` processes, in program order
(`anomaly.py` lines 28–47): total reports always; the two category shares
and the user-source share only when their column is present. -/
def metricCols (df : ADF) : List String :=
  ["reports"] ++
    (["share_misinformation", "share_child_safety"].filter (fun c => df.cols.contains c)) ++
    (if df.cols.contains "share_user" then ["share_user"] else [])

/-- One output row of `detect_anomalies` (column order of the constructed
dataframe: value, zscore, anomaly, then the appended country, date, metric). -/
structure AnomRow where
  value : Fl
  zscore : Zsc
  anomaly : Bool
  country : String
  date : ℤ
  metric : String
  deriving DecidableEq, Repr

/-- The columns of the `detect_anomalies` output table. -/
def anomOutCols : List String := ["value", "zscore", "anomaly", "country", "date", "metric"]

/-- The rows of one `detect_zscore_anomalies` call tagged with country,
date and metric (`res["country"] = c; res["date"] = s["date"].values;
res["metric"] = ...`): one output row per row of the sorted country slice. -/
def zrowsAux (window : ℕ) (threshold : ℚ) (c m : String) (series : List Fl) :
    List ARow → ℕ → List AnomRow
  | [], _ => []
  | row :: rest, i =>
    { value := series.getD i .nan, zscore := zscoreAt window series i,
      anomaly := anomalyAt window threshold series i,
      country := c, date := row.date, metric := m } ::
      zrowsAux window threshold c m series rest (i + 1)

/-- `s = df[df["country"]==c].sort_values("date")` followed by one
`detect_zscore_anomalies` run per processed metric (pandas sorts with an
unstable quicksort; on the distinct dates of one country any sort by date
gives the same sequence, and an insertion sort stands in for it). -/
def countryBlock (df : ADF) (window : ℕ) (threshold : ℚ) (c : String) : List AnomRow :=
  let s := (df.rows.filter (fun row => row.country = c)).insertionSort
    (fun a b => a.date ≤ b.date)
  (metricCols df).flatMap (fun m => zrowsAux window threshold c m (s.map (·.get m)) s 0)

/-- All output rows of `detect_anomalies`: one country block per country in
first-appearance order. -/
def detectRows (df : ADF) (window : ℕ) (threshold : ℚ) : List AnomRow :=
  (uniqueCountries df).flatMap (fun c => countryBlock df window threshold c)

/-- `detect_anomalies` (`anomaly.py` lines 17–50): per-country, per-metric
z-score passes concatenated with `pd.concat(results)`; `pd.concat` of an
empty list (a table with no rows, hence no countries) raises, modelled as
`none`. -/
def detect_anomalies (df : ADF) (window : ℕ) (threshold : ℚ) :
    Option (List String × List AnomRow) :=
  if df.rows.isEmpty then none
  else some (anomOutCols, detectRows df window threshold)

/-- A one-day, one-country configuration with a large user base (every draw
of the report-rate range then yields a strictly positive report count). -/
def cfgW : GenConfig where
  startDate := 0
  endDate := 0
  countries := ["X"]
  baseUsers := fun _ => 20000
  surgeStart := -10
  surgeEnd := -5
  respImprovePerDay := 0
  adjust := fun _ => ⟨1, 1⟩

/-- A one-day, one-country configuration with a tiny user base: content is
created but every report-rate draw truncates to zero reports. -/
def cfgSmall : GenConfig where
  startDate := 0
  endDate := 0
  countries := ["X"]
  baseUsers := fun _ => 100
  surgeStart := -10
  surgeEnd := -5
  respImprovePerDay := 0
  adjust := fun _ => ⟨1, 1⟩

/-- A configuration whose user base is so small that even the content count
truncates to zero. -/
def cfgTiny : GenConfig where
  startDate := 0
  endDate := 0
  countries := ["X"]
  baseUsers := fun _ => 10
  surgeStart := -10
  surgeEnd := -5
  respImprovePerDay := 0
  adjust := fun _ => ⟨1, 1⟩

/-- The first generated row of `cfgW` at seed 0. -/
def rowW : FullRow := (generate_dataframe cfgW (Rng.ofSeed 0)).headD dummyFullRow

/-- The first generated row of `cfgSmall` at seed 0. -/
def rowSmall : FullRow := (generate_dataframe cfgSmall (Rng.ofSeed 0)).headD dummyFullRow

/-- The first generated row of `cfgTiny` at seed 0. -/
def rowTiny : FullRow := (generate_dataframe cfgTiny (Rng.ofSeed 0)).headD dummyFullRow

theorem natLt_le (r : Rng) (n : ℕ) : (r.natLt (n + 1)).1 ≤ n := by
  simp only [Rng.natLt, if_neg (Nat.add_one_ne_zero n)]
  exact Nat.lt_succ_iff.mp (Nat.mod_lt _ (Nat.succ_pos n))

theorem uniform_mem (r : Rng) (lo hi : ℚ) (h : lo ≤ hi) :
    lo ≤ (r.uniform lo hi).1 ∧ (r.uniform lo hi).1 ≤ hi := by
  simp only [Rng.uniform]
  set k : ℕ := r.next.1 % 1001 with hk
  have hk1000 : (k : ℚ) ≤ 1000 := by
    have : k < 1001 := Nat.mod_lt _ (by norm_num)
    exact_mod_cast Nat.lt_succ_iff.mp this
  have hk0 : (0 : ℚ) ≤ (k : ℚ) := Nat.cast_nonneg k
  have hd : (0 : ℚ) ≤ hi - lo := sub_nonneg.mpr h
  constructor
  · have : 0 ≤ (hi - lo) * (k : ℚ) / 1000 :=
      div_nonneg (mul_nonneg hd hk0) (by norm_num)
    linarith
  · have : (hi - lo) * (k : ℚ) / 1000 ≤ (hi - lo) := by
      rw [div_le_iff₀ (by norm_num : (0:ℚ) < 1000)]
      calc (hi - lo) * (k : ℚ) ≤ (hi - lo) * 1000 := by
            exact mul_le_mul_of_nonneg_left hk1000 hd
        _ = (hi - lo) * 1000 := rfl
    linarith

theorem truncQ_of_nonneg {q : ℚ} (h : 0 ≤ q) : truncQ q = ⌊q⌋ := by
  simp [truncQ, h]

theorem truncQ_nonneg {q : ℚ} (h : 0 ≤ q) : 0 ≤ truncQ q := by
  rw [truncQ_of_nonneg h]
  exact Int.floor_nonneg.mpr h

theorem truncQ_le_of_le {q : ℚ} {n : ℕ} (h0 : 0 ≤ q) (h : q ≤ (n : ℚ)) :
    (truncQ q).toNat ≤ n := by
  rw [truncQ_of_nonneg h0]
  have := Int.floor_le_floor h
  rw [Int.floor_natCast] at this
  omega

/-- Truncating `n * rate` for a rate in `[0, 1]` never exceeds `n`. -/
theorem trunc_mul_rate_le (n : ℕ) {q : ℚ} (h0 : 0 ≤ q) (h1 : q ≤ 1) :
    (truncQ ((n : ℚ) * q)).toNat ≤ n := by
  refine truncQ_le_of_le (by positivity) ?_
  calc (n : ℚ) * q ≤ (n : ℚ) * 1 := by
        exact mul_le_mul_of_nonneg_left h1 (Nat.cast_nonneg n)
    _ = (n : ℚ) := mul_one _

theorem multinomialAux_sum :
    ∀ (ps : List ℚ) (total : ℕ) (r : Rng), ps ≠ [] →
      (multinomialAux total ps r).1.sum = total := by
  intro ps
  induction ps with
  | nil => intro _ _ h; exact absurd rfl h
  | cons p ps ih =>
    intro total r _
    cases ps with
    | nil => simp [multinomialAux]
    | cons p2 ps2 =>
      simp only [multinomialAux, List.sum_cons]
      rw [ih _ _ (by simp)]
      exact Nat.add_sub_cancel' (natLt_le r total)

theorem multinomialAux_length :
    ∀ (ps : List ℚ) (total : ℕ) (r : Rng),
      (multinomialAux total ps r).1.length = ps.length := by
  intro ps
  induction ps with
  | nil => intro _ _; rfl
  | cons p ps ih =>
    intro total r
    cases ps with
    | nil => rfl
    | cons p2 ps2 => simpa [multinomialAux] using ih _ _

theorem multinomial_split_sum (total : ℕ) (ps : List ℚ) (r : Rng) (h : ps ≠ []) :
    (multinomial_split total ps r).1.sum = total := by
  by_cases h0 : total = 0
  · subst h0
    simp [multinomial_split, List.sum_eq_zero]
  · simp only [multinomial_split, if_neg h0]
    exact multinomialAux_sum ps total r h

theorem multinomial_split_length (total : ℕ) (ps : List ℚ) (r : Rng) :
    (multinomial_split total ps r).1.length = ps.length := by
  by_cases h0 : total = 0
  · subst h0; simp [multinomial_split]
  · simp only [multinomial_split, if_neg h0]
    exact multinomialAux_length ps total r

theorem sum_of_length_three {l : List ℕ} (h : l.length = 3) :
    l.getD 0 0 + l.getD 1 0 + l.getD 2 0 = l.sum := by
  match l, h with
  | [a, b, c], _ => simp [Nat.add_assoc]

theorem sum_of_length_four {l : List ℕ} (h : l.length = 4) :
    l.getD 0 0 + l.getD 1 0 + l.getD 2 0 + l.getD 3 0 = l.sum := by
  match l, h with
  | [a, b, c, d], _ => simp [Nat.add_assoc]

theorem sum_of_length_six {l : List ℕ} (h : l.length = 6) :
    l.getD 0 0 + l.getD 1 0 + l.getD 2 0 + l.getD 3 0 + l.getD 4 0 + l.getD 5 0 = l.sum := by
  match l, h with
  | [a, b, c, d, e, f], _ => simp [Nat.add_assoc]

theorem npClip_mem (x lo hi : ℚ) (h : lo ≤ hi) :
    lo ≤ npClip x lo hi ∧ npClip x lo hi ≤ hi := by
  constructor
  · exact le_min (le_max_right x lo) h
  · exact min_le_right _ _

theorem SOURCE_MIX_length (c : Cat) : (SOURCE_MIX c).length = 3 := by
  cases c <;> rfl

theorem ENF_MIX_length (c : Cat) : (ENF_MIX c).length = 4 := by
  cases c <;> rfl

theorem ENF_RATE_range (c : Cat) :
    0 ≤ (ENF_RATE_BY_CAT c).1 ∧ (ENF_RATE_BY_CAT c).1 ≤ (ENF_RATE_BY_CAT c).2 ∧
      (ENF_RATE_BY_CAT c).2 ≤ 1 := by
  cases c <;> norm_num [ENF_RATE_BY_CAT]

theorem APPEAL_RATE_range (c : Cat) :
    0 ≤ (APPEAL_RATE_BY_CAT c).1 ∧ (APPEAL_RATE_BY_CAT c).1 ≤ (APPEAL_RATE_BY_CAT c).2 ∧
      (APPEAL_RATE_BY_CAT c).2 ≤ 1 := by
  cases c <;> norm_num [APPEAL_RATE_BY_CAT]

theorem adjust_category_mix_length (cfg : GenConfig) (day : ℤ) :
    (adjust_category_mix cfg day).length = 6 := by
  simp only [adjust_category_mix, List.length_map]
  split <;> split <;> simp [BASE_CAT_P]

theorem truncQ_zero : truncQ 0 = 0 := by
  simp [truncQ]

theorem truncQ_gt_sub_one (q : ℚ) : q - 1 < (truncQ q : ℚ) := by
  by_cases h : 0 ≤ q
  · rw [truncQ_of_nonneg h]
    exact Int.sub_one_lt_floor q
  · simp only [truncQ, if_neg h]
    push_cast
    have := Int.floor_le (-q)
    linarith

theorem normalDraw_mem (r : Rng) (sigma : ℚ) (h : 0 ≤ sigma) :
    -sigma ≤ (r.normalDraw sigma).1 ∧ (r.normalDraw sigma).1 ≤ sigma := by
  simp only [Rng.normalDraw]
  set k : ℕ := r.next.1 % 2001 with hk
  have hk2000 : (k : ℚ) ≤ 2000 := by
    have : k < 2001 := Nat.mod_lt _ (by norm_num)
    exact_mod_cast Nat.lt_succ_iff.mp this
  have hk0 : (0 : ℚ) ≤ (k : ℚ) := Nat.cast_nonneg k
  constructor
  · rw [le_div_iff₀ (by norm_num : (0:ℚ) < 1000)]
    nlinarith [mul_nonneg h hk0]
  · rw [div_le_iff₀ (by norm_num : (0:ℚ) < 1000)]
    nlinarith [mul_le_mul_of_nonneg_left hk2000 h]

theorem SOURCE_MIX_ne_nil (c : Cat) : SOURCE_MIX c ≠ [] := by
  intro h
  have := SOURCE_MIX_length c
  rw [h] at this
  simp at this

theorem ENF_MIX_ne_nil (c : Cat) : ENF_MIX c ≠ [] := by
  intro h
  have := ENF_MIX_length c
  rw [h] at this
  simp at this

theorem APPEAL_SUCCESS_le (c : Cat) :
    (APPEAL_SUCCESS_BY_CAT c).1 ≤ (APPEAL_SUCCESS_BY_CAT c).2 := by
  cases c <;> norm_num [APPEAL_SUCCESS_BY_CAT]

/-- The per-category step: sources add exactly the category count, the
enforcement-type counts add exactly the enforced count, and the
enforced/appealed/successful counts respect the truncated-rate bounds. -/
theorem catStep_spec (cat : Cat) (count : ℕ) (acc : CellAcc) (r : Rng) :
    ∃ e ap sc,
      (catStep cat count acc r).1.ru + (catStep cat count acc r).1.ra +
          (catStep cat count acc r).1.rt = acc.ru + acc.ra + acc.rt + count ∧
      (catStep cat count acc r).1.enf = acc.enf + e ∧
      (catStep cat count acc r).1.er + (catStep cat count acc r).1.ew +
          (catStep cat count acc r).1.es + (catStep cat count acc r).1.ed
          = acc.er + acc.ew + acc.es + acc.ed + e ∧
      (catStep cat count acc r).1.app = acc.app + ap ∧
      (catStep cat count acc r).1.suc = acc.suc + sc ∧
      e ≤ count ∧ ap ≤ e ∧ sc ≤ ap := by
  by_cases hc : count = 0
  · subst hc
    refine ⟨0, 0, 0, ?_⟩
    simp [catStep]
  · simp only [catStep, if_neg hc]
    set sp := multinomial_split count (SOURCE_MIX cat) r with hsp
    set ep := sp.2.uniform (ENF_RATE_BY_CAT cat).1 (ENF_RATE_BY_CAT cat).2 with hep
    set enfs := (truncQ ((count : ℚ) * ep.1)).toNat with henfs
    set tp := multinomial_split enfs (ENF_MIX cat) ep.2 with htp
    set app2 := tp.2.uniform (APPEAL_RATE_BY_CAT cat).1 (APPEAL_RATE_BY_CAT cat).2 with happ
    set appeals := (truncQ ((enfs : ℚ) * app2.1)).toNat with happeals
    have hsrcsum : sp.1.getD 0 0 + sp.1.getD 1 0 + sp.1.getD 2 0 = count := by
      have h1 : sp.1.sum = count :=
        multinomial_split_sum count (SOURCE_MIX cat) r (SOURCE_MIX_ne_nil cat)
      have h2 : sp.1.length = 3 := by
        rw [hsp, multinomial_split_length]
        exact SOURCE_MIX_length cat
      rw [sum_of_length_three h2, h1]
    have henfsum : tp.1.getD 0 0 + tp.1.getD 1 0 + tp.1.getD 2 0 + tp.1.getD 3 0 = enfs := by
      have h1 : tp.1.sum = enfs :=
        multinomial_split_sum enfs (ENF_MIX cat) ep.2 (ENF_MIX_ne_nil cat)
      have h2 : tp.1.length = 4 := by
        rw [htp, multinomial_split_length]
        exact ENF_MIX_length cat
      rw [sum_of_length_four h2, h1]
    have hre := ENF_RATE_range cat
    have hue := uniform_mem sp.2 (ENF_RATE_BY_CAT cat).1 (ENF_RATE_BY_CAT cat).2 hre.2.1
    have henfs_le : enfs ≤ count :=
      trunc_mul_rate_le count (le_trans hre.1 hue.1) (le_trans hue.2 hre.2.2)
    have hra := APPEAL_RATE_range cat
    have hua := uniform_mem tp.2 (APPEAL_RATE_BY_CAT cat).1 (APPEAL_RATE_BY_CAT cat).2 hra.2.1
    have happeals_le : appeals ≤ enfs :=
      trunc_mul_rate_le enfs (le_trans hra.1 hua.1) (le_trans hua.2 hra.2.2)
    refine ⟨enfs, appeals, _, by omega, rfl, by omega, rfl, rfl, henfs_le, happeals_le, ?_⟩
    exact trunc_mul_rate_le appeals (npClip_mem _ 0 1 (by norm_num)).1
      (npClip_mem _ 0 1 (by norm_num)).2

/-- Folding the per-category step accumulates the invariants: the source
totals add up to the processed counts, the enforcement-type totals add up to
the enforcement total, and the funnel `enforced ≥ appealed ≥ successful`
is preserved. -/
theorem catFold_spec :
    ∀ (l : List (Cat × ℕ)) (acc : CellAcc) (r : Rng),
      ∃ e ap sc,
        (catFold l acc r).1.ru + (catFold l acc r).1.ra + (catFold l acc r).1.rt
            = acc.ru + acc.ra + acc.rt + (l.map Prod.snd).sum ∧
        (catFold l acc r).1.enf = acc.enf + e ∧
        (catFold l acc r).1.er + (catFold l acc r).1.ew + (catFold l acc r).1.es +
            (catFold l acc r).1.ed = acc.er + acc.ew + acc.es + acc.ed + e ∧
        (catFold l acc r).1.app = acc.app + ap ∧
        (catFold l acc r).1.suc = acc.suc + sc ∧
        e ≤ (l.map Prod.snd).sum ∧ ap ≤ e ∧ sc ≤ ap := by
  intro l
  induction l with
  | nil =>
    intro acc r
    exact ⟨0, 0, 0, by simp [catFold], by simp [catFold], by simp [catFold],
      by simp [catFold], by simp [catFold], by simp, le_refl 0, le_refl 0⟩
  | cons p rest ih =>
    intro acc r
    obtain ⟨e1, a1, s1, k1, k2, k3, k4, k5, k6, k7, k8⟩ := catStep_spec p.1 p.2 acc r
    obtain ⟨e2, a2, s2, m1, m2, m3, m4, m5, m6, m7, m8⟩ :=
      ih (catStep p.1 p.2 acc r).1 (catStep p.1 p.2 acc r).2
    have hfold : catFold (p :: rest) acc r =
        catFold rest (catStep p.1 p.2 acc r).1 (catStep p.1 p.2 acc r).2 := by
      rfl
    refine ⟨e1 + e2, a1 + a2, s1 + s2, ?_, ?_, ?_, ?_, ?_, ?_, ?_, ?_⟩ <;>
      (try simp only [hfold, List.map_cons, List.sum_cons]) <;> omega

/-- The complete per-cell invariant bundle: conservation of categories,
sources and enforcement types, the funnel inequalities, response-time
bounds, the zero-content degenerate case, and sign facts on users/content
for a nonnegative base. -/
theorem genCell_spec (cfg : GenConfig) (day : ℤ) (baseResp : ℚ) (catP : List ℚ)
    (c : String) (r : Rng) (row : RawRow) (hlen : catP.length = 6)
    (hrow : row = (genCell cfg day baseResp catP c r).1) :
    (row.reports_spam + row.reports_harassment_hate + row.reports_nudity +
        row.reports_misinformation + row.reports_child_safety + row.reports_other
        = row.reports) ∧
    (row.reports_user + row.reports_ai + row.reports_trusted = row.reports) ∧
    (row.enf_removed + row.enf_warning + row.enf_suspension + row.enf_downrank
        = row.enforcements) ∧
    row.enforcements ≤ row.reports ∧
    row.appeals ≤ row.enforcements ∧
    row.successful_appeals ≤ row.appeals ∧
    6 ≤ row.median_response_time_hours ∧ row.median_response_time_hours ≤ 36 ∧
    (row.content_created = 0 → row.reports = 0) ∧
    (0 ≤ cfg.baseUsers c → 0 ≤ row.active_users ∧ 0 ≤ row.content_created) := by
  subst hrow
  simp only [genCell]
  set np := r.normalDraw ((cfg.baseUsers c : ℚ) * 0.05) with hnp
  set users : ℤ := cfg.baseUsers c + truncQ np.1 with husers
  set up := np.2.uniform 0.02 0.05 with hup
  set content : ℤ := truncQ ((users : ℚ) * up.1) with hcontent
  set rp := up.2.uniform 0.009 0.015 with hrp
  set mult : ℚ := if cfg.surgeStart ≤ day ∧ day ≤ cfg.surgeEnd
    then (cfg.adjust c).report_mult * 1.8 else (cfg.adjust c).report_mult with hmult
  set reports : ℕ := (truncQ ((content : ℚ) * rp.1 * mult)).toNat with hreports
  set cp := multinomial_split reports catP rp.2 with hcp
  set fp := catFold (VIOLATION_CATEGORIES.zip cp.1) CellAcc.zero cp.2 with hfp
  set tp := fp.2.uniform (baseResp - 4) (baseResp + 4) with htp
  have hcat_len : cp.1.length = 6 := by
    rw [hcp, multinomial_split_length]
    exact hlen
  have hcat_sum : cp.1.sum = reports := by
    rw [hcp]
    refine multinomial_split_sum reports catP rp.2 ?_
    intro hnil
    rw [hnil] at hlen
    simp at hlen
  have hzipsnd : (VIOLATION_CATEGORIES.zip cp.1).map Prod.snd = cp.1 := by
    refine List.map_snd_zip VIOLATION_CATEGORIES cp.1 ?_
    rw [hcat_len]
    rfl
  obtain ⟨e, ap, sc, f1, f2, f3, f4, f5, f6, f7, f8⟩ :=
    catFold_spec (VIOLATION_CATEGORIES.zip cp.1) CellAcc.zero cp.2
  rw [← hfp] at f1 f2 f3 f4 f5
  simp only [CellAcc.zero] at f1 f2 f3 f4 f5
  rw [hzipsnd, hcat_sum] at f1 f6
  have hresp := npClip_mem (round1 tp.1) 6 36 (by norm_num)
  refine ⟨?_, ?_, ?_, ?_, ?_, ?_, hresp.1, hresp.2, ?_, ?_⟩
  · rw [sum_of_length_six hcat_len, hcat_sum]
  · omega
  · omega
  · omega
  · omega
  · omega
  · intro hzero
    rw [hreports, hzero]
    norm_num [truncQ_zero]
  · intro hbase
    have hsig : (0 : ℚ) ≤ (cfg.baseUsers c : ℚ) * 0.05 := by
      have : (0 : ℚ) ≤ (cfg.baseUsers c : ℚ) := by exact_mod_cast hbase
      positivity
    have hnd := normalDraw_mem r ((cfg.baseUsers c : ℚ) * 0.05) hsig
    rw [← hnp] at hnd
    have htr := truncQ_gt_sub_one np.1
    have hb : (0 : ℚ) ≤ (cfg.baseUsers c : ℚ) := by exact_mod_cast hbase
    have husers0 : 0 ≤ users := by
      by_contra hneg
      push_neg at hneg
      have h1 : users ≤ -1 := by omega
      have h2 : ((users : ℤ) : ℚ) ≤ -1 := by exact_mod_cast h1
      have h3 : ((users : ℤ) : ℚ) = (cfg.baseUsers c : ℚ) + ((truncQ np.1 : ℤ) : ℚ) := by
        rw [husers]
        push_cast
        ring
      linarith [hnd.1, htr]
    refine ⟨husers0, ?_⟩
    rw [hcontent]
    refine truncQ_nonneg ?_
    have hu2 := uniform_mem np.2 0.02 0.05 (by norm_num)
    rw [← hup] at hu2
    have hq : (0 : ℚ) ≤ (users : ℚ) := by exact_mod_cast husers0
    exact mul_nonneg hq (le_trans (by norm_num) hu2.1)

theorem genCountries_mem (cfg : GenConfig) (day : ℤ) (baseResp : ℚ) (catP : List ℚ) :
    ∀ (cs : List String) (r : Rng) (row : RawRow),
      row ∈ (genCountries cfg day baseResp catP cs r).1 →
      ∃ c r2, c ∈ cs ∧ row = (genCell cfg day baseResp catP c r2).1 := by
  intro cs
  induction cs with
  | nil =>
    intro r row h
    simp [genCountries] at h
  | cons c cs ih =>
    intro r row h
    simp only [genCountries, List.mem_cons] at h
    rcases h with h | h
    · exact ⟨c, r, List.mem_cons_self c cs, h⟩
    · obtain ⟨c2, r2, hc2, hr2⟩ := ih _ row h
      exact ⟨c2, r2, List.mem_cons_of_mem c hc2, hr2⟩

theorem genDays_mem (cfg : GenConfig) (day0 : ℤ) :
    ∀ (ds : List ℤ) (r : Rng) (row : RawRow),
      row ∈ (genDays cfg day0 ds r).1 →
      ∃ d baseResp c r2,
        row = (genCell cfg d baseResp (adjust_category_mix cfg d) c r2).1 := by
  intro ds
  induction ds with
  | nil =>
    intro r row h
    simp [genDays] at h
  | cons d ds ih =>
    intro r row h
    simp only [genDays, List.mem_append] at h
    rcases h with h | h
    · obtain ⟨c, r2, _, hr2⟩ := genCountries_mem cfg d _ _ cfg.countries _ row h
      exact ⟨d, _, c, r2, hr2⟩
    · exact ih _ row h

/-- Every row of a generated table is one `genCell` result (over that day's
category mix), post-processed by the derived-column pass. -/
theorem generate_mem (cfg : GenConfig) (r : Rng) (row : FullRow)
    (h : row ∈ generate_dataframe cfg r) :
    ∃ raw d baseResp c r2,
      row = addDerived raw ∧
      raw = (genCell cfg d baseResp (adjust_category_mix cfg d) c r2).1 := by
  simp only [generate_dataframe, List.mem_map] at h
  obtain ⟨raw, hraw, hrow⟩ := h
  obtain ⟨d, baseResp, c, r2, hr2⟩ := genDays_mem cfg cfg.startDate _ _ raw hraw
  exact ⟨raw, d, baseResp, c, r2, hrow.symm, hr2⟩

/-- C1: in every generated cell with a positive report count the six
category counts sum exactly to `reports`, the three source counts sum
exactly to `reports`, and the four enforcement-type counts sum exactly to
`enforcements` — as exact equalities of natural numbers. -/
theorem C1_conservation (cfg : GenConfig) (r : Rng) (row : FullRow)
    (hmem : row ∈ generate_dataframe cfg r) (hpos : 0 < row.reports) :
    row.reports_spam + row.reports_harassment_hate + row.reports_nudity +
        row.reports_misinformation + row.reports_child_safety + row.reports_other
        = row.reports ∧
    row.reports_user + row.reports_ai + row.reports_trusted = row.reports ∧
    row.enf_removed + row.enf_warning + row.enf_suspension + row.enf_downrank
        = row.enforcements := by
  obtain ⟨raw, d, baseResp, c, r2, hrow, hraw⟩ := generate_mem cfg r row hmem
  obtain ⟨g1, g2, g3, _⟩ :=
    genCell_spec cfg d baseResp (adjust_category_mix cfg d) c r2 raw
      (adjust_category_mix_length cfg d) hraw
  subst hrow
  simp only [addDerived]
  exact ⟨g1, g2, g3⟩

/-- C2: every generated cell (also those with zero reports) satisfies the
funnel inequalities `enforcements ≤ reports`, `appeals ≤ enforcements` and
`successful_appeals ≤ appeals`. -/
theorem C2_funnel (cfg : GenConfig) (r : Rng) (row : FullRow)
    (hmem : row ∈ generate_dataframe cfg r) :
    row.enforcements ≤ row.reports ∧ row.appeals ≤ row.enforcements ∧
      row.successful_appeals ≤ row.appeals := by
  obtain ⟨raw, d, baseResp, c, r2, hrow, hraw⟩ := generate_mem cfg r row hmem
  obtain ⟨_, _, _, g4, g5, g6, _⟩ :=
    genCell_spec cfg d baseResp (adjust_category_mix cfg d) c r2 raw
      (adjust_category_mix_length cfg d) hraw
  subst hrow
  simp only [addDerived]
  exact ⟨g4, g5, g6⟩

unseal Rat.mul Rat.add Rat.sub Rat.inv Rat.ofScientific in
theorem C1_witness :
    rowW ∈ generate_dataframe cfgW (Rng.ofSeed 0) ∧ 0 < rowW.reports ∧
      (rowW.reports_spam + rowW.reports_harassment_hate + rowW.reports_nudity +
          rowW.reports_misinformation + rowW.reports_child_safety + rowW.reports_other
          = rowW.reports ∧
        rowW.reports_user + rowW.reports_ai + rowW.reports_trusted = rowW.reports ∧
        rowW.enf_removed + rowW.enf_warning + rowW.enf_suspension + rowW.enf_downrank
          = rowW.enforcements) :=
  ⟨by decide, by decide,
    C1_conservation cfgW (Rng.ofSeed 0) rowW (by decide) (by decide)⟩

unseal Rat.mul Rat.add Rat.sub Rat.inv Rat.ofScientific in
theorem C2_witness :
    rowW ∈ generate_dataframe cfgW (Rng.ofSeed 0) ∧
      (rowW.enforcements ≤ rowW.reports ∧ rowW.appeals ≤ rowW.enforcements ∧
        rowW.successful_appeals ≤ rowW.appeals) :=
  ⟨by decide, C2_funnel cfgW (Rng.ofSeed 0) rowW (by decide)⟩

/-- C5: in the derived-column pass over generated rows, every division with
a zero denominator yields `nan` (pandas' explicit undefined), never an error
and never a fabricated zero: a zero `content_created` forces a zero report
count, so `report_rate` is the `nan` of `0/0`; the other three rates and all
nine shares divide by a `.replace(0, np.nan)` denominator. -/
theorem C5_zero_denominators (cfg : GenConfig) (r : Rng) (row : FullRow)
    (hmem : row ∈ generate_dataframe cfg r) :
    (row.content_created = 0 → row.report_rate = Fl.nan) ∧
    (row.reports = 0 → row.enforcement_rate = Fl.nan ∧
      row.share_spam = Fl.nan ∧ row.share_harassment_hate = Fl.nan ∧
      row.share_nudity = Fl.nan ∧ row.share_misinformation = Fl.nan ∧
      row.share_child_safety = Fl.nan ∧ row.share_other = Fl.nan ∧
      row.share_user = Fl.nan ∧ row.share_ai = Fl.nan ∧
      row.share_trusted = Fl.nan) ∧
    (row.enforcements = 0 → row.appeal_rate = Fl.nan) ∧
    (row.appeals = 0 → row.appeal_success_rate = Fl.nan) := by
  obtain ⟨raw, d, baseResp, c, r2, hrow, hraw⟩ := generate_mem cfg r row hmem
  obtain ⟨_, _, _, _, _, _, _, _, g9, _⟩ :=
    genCell_spec cfg d baseResp (adjust_category_mix cfg d) c r2 raw
      (adjust_category_mix_length cfg d) hraw
  subst hrow
  simp only [addDerived]
  refine ⟨?_, ?_, ?_, ?_⟩
  · intro h
    have h0 : raw.reports = 0 := g9 h
    simp [fldiv, h, h0]
  · intro h
    simp [fldivRepl, h]
  · intro h
    simp [fldivRepl, h]
  · intro h
    simp [fldivRepl, h]

unseal Rat.mul Rat.add Rat.sub Rat.inv Rat.ofScientific in
theorem C5_witness :
    rowTiny ∈ generate_dataframe cfgTiny (Rng.ofSeed 0) ∧
      rowTiny.content_created = 0 ∧ rowTiny.reports = 0 ∧
      rowTiny.enforcements = 0 ∧ rowTiny.appeals = 0 ∧
      rowTiny.report_rate = Fl.nan ∧ rowTiny.enforcement_rate = Fl.nan ∧
      rowTiny.appeal_rate = Fl.nan ∧ rowTiny.appeal_success_rate = Fl.nan ∧
      rowTiny.share_spam = Fl.nan :=
  ⟨by decide, by decide, by decide, by decide, by decide,
    (C5_zero_denominators cfgTiny (Rng.ofSeed 0) rowTiny (by decide)).1 (by decide),
    ((C5_zero_denominators cfgTiny (Rng.ofSeed 0) rowTiny (by decide)).2.1 (by decide)).1,
    (C5_zero_denominators cfgTiny (Rng.ofSeed 0) rowTiny (by decide)).2.2.1 (by decide),
    (C5_zero_denominators cfgTiny (Rng.ofSeed 0) rowTiny (by decide)).2.2.2 (by decide),
    ((C5_zero_denominators cfgTiny (Rng.ofSeed 0) rowTiny (by decide)).2.1 (by decide)).2.1⟩

/-- C3: whenever required columns are missing, `run_checks` returns exactly
one finding — the missing-column message naming them — and performs no
further check (the result is literally that singleton); as a total
function it never raises on data problems. -/
theorem C3_missing_columns (df : PDF) (eps share_tol : ℚ)
    (h : requiredCols.filter (fun c => ! df.cols.contains c) ≠ []) :
    run_checks df eps share_tol =
      [msgMissing (requiredCols.filter (fun c => ! df.cols.contains c))] := by
  simp only [run_checks]
  rw [if_pos h]

/-- A table whose columns are all required ones except `reports`. -/
def dfMissingReports : PDF :=
  { cols := requiredCols.erase "reports", nrows := 0, cell := fun _ _ => .fl .nan }

theorem C3_witness :
    requiredCols.filter (fun c => ! dfMissingReports.cols.contains c) = ["reports"] ∧
      run_checks dfMissingReports 0.000001 0.02 = [msgMissing ["reports"]] := by
  have h1 : requiredCols.filter (fun c => ! dfMissingReports.cols.contains c)
      = ["reports"] := by decide
  refine ⟨h1, ?_⟩
  rw [C3_missing_columns dfMissingReports 0.000001 0.02 (by rw [h1]; decide), h1]

/-- C8: generation is deterministic — the output table is a function of the
configuration and the seeded random state alone (the explicit `Rng` value is
the embedding of numpy's seeded global state, the only non-determinism of
the Python code), so equal seeds give equal tables. -/
theorem C8_determinism (cfg : GenConfig) (s1 s2 : ℕ) (h : s1 = s2) :
    generate_dataframe cfg (Rng.ofSeed s1) = generate_dataframe cfg (Rng.ofSeed s2) := by
  rw [h]

theorem C8_witness :
    generate_dataframe cfgW (Rng.ofSeed 42) = generate_dataframe cfgW (Rng.ofSeed 42) :=
  C8_determinism cfgW 42 42 rfl

theorem genCell_report_mult_only (cfg : GenConfig) (a2 : String → CountryAdj)
    (h : ∀ c, (a2 c).report_mult = (cfg.adjust c).report_mult)
    (day : ℤ) (baseResp : ℚ) (catP : List ℚ) (c : String) (r : Rng) :
    genCell { cfg with adjust := a2 } day baseResp catP c r =
      genCell cfg day baseResp catP c r := by
  simp only [genCell, h c]

theorem genCountries_report_mult_only (cfg : GenConfig) (a2 : String → CountryAdj)
    (h : ∀ c, (a2 c).report_mult = (cfg.adjust c).report_mult)
    (day : ℤ) (baseResp : ℚ) (catP : List ℚ) :
    ∀ (cs : List String) (r : Rng),
      genCountries { cfg with adjust := a2 } day baseResp catP cs r =
        genCountries cfg day baseResp catP cs r := by
  intro cs
  induction cs with
  | nil => intro r; rfl
  | cons c cs ih =>
    intro r
    simp only [genCountries, genCell_report_mult_only cfg a2 h day baseResp catP c, ih]

theorem adjust_category_mix_update (cfg : GenConfig) (a2 : String → CountryAdj)
    (d : ℤ) :
    adjust_category_mix { cfg with adjust := a2 } d = adjust_category_mix cfg d := rfl

theorem genDays_report_mult_only (cfg : GenConfig) (a2 : String → CountryAdj)
    (h : ∀ c, (a2 c).report_mult = (cfg.adjust c).report_mult) (day0 : ℤ) :
    ∀ (ds : List ℤ) (r : Rng),
      genDays { cfg with adjust := a2 } day0 ds r = genDays cfg day0 ds r := by
  intro ds
  induction ds with
  | nil => intro r; rfl
  | cons d ds ih =>
    intro r
    simp only [genDays, adjust_category_mix_update,
      genCountries_report_mult_only cfg a2 h, ih]

/-- C10: the `appeal_success` entries of the country adjustments are never
read by the generator — replacing the adjustment table by any table with the
same `report_mult` entries leaves the generated table unchanged, from any
random state. -/
theorem C10_appeal_success_unused (cfg : GenConfig) (a2 : String → CountryAdj)
    (h : ∀ c, (a2 c).report_mult = (cfg.adjust c).report_mult) (r : Rng) :
    generate_dataframe { cfg with adjust := a2 } r = generate_dataframe cfg r := by
  simp only [generate_dataframe, generateRaw, genDays_report_mult_only cfg a2 h]

theorem C10_witness :
    generate_dataframe { cfgW with adjust := fun _ => ⟨2.5, 1⟩ } (Rng.ofSeed 0) =
      generate_dataframe cfgW (Rng.ofSeed 0) :=
  C10_appeal_success_unused cfgW (fun _ => ⟨2.5, 1⟩) (fun _ => rfl) (Rng.ofSeed 0)

theorem filterMap_toNum_replicate (k : ℕ) (c : ℚ) :
    (List.replicate k (Fl.num c)).filterMap Fl.toNum = List.replicate k c := by
  induction k with
  | zero => rfl
  | succ k ih => simp [List.replicate_succ, List.filterMap_cons, Fl.toNum, ih]

theorem filterMap_toNum_map_num (l : List ℚ) :
    (l.map Fl.num).filterMap Fl.toNum = l := by
  induction l with
  | nil => rfl
  | cons x l ih => simp [List.filterMap_cons, Fl.toNum, ih]

theorem validObs_replicate (w n i : ℕ) (c : ℚ) (h1 : i < n) (h2 : n ≤ w) :
    validObs w (List.replicate n (Fl.num c)) i = List.replicate (i + 1) c := by
  unfold validObs windowSlice
  rw [List.take_replicate, min_eq_left (Nat.succ_le_of_lt h1),
    Nat.sub_eq_zero_of_le (by omega), List.drop_zero, filterMap_toNum_replicate]

theorem rollMean_const (w n i : ℕ) (c : ℚ) (h1 : i < n) (h2 : n ≤ w) :
    rollMean w (List.replicate n (Fl.num c)) i = Fl.num c := by
  unfold rollMean
  rw [validObs_replicate w n i c h1 h2]
  simp only [List.length_replicate, List.sum_replicate, nsmul_eq_mul]
  rw [if_neg (Nat.succ_ne_zero i)]
  congr 1
  exact mul_div_cancel_left₀ _ (by exact_mod_cast Nat.succ_ne_zero i)

theorem rollVar_const (w n i : ℕ) (c : ℚ) (h0 : 1 ≤ i) (h1 : i < n) (h2 : n ≤ w) :
    rollVar w (List.replicate n (Fl.num c)) i = Fl.num 0 := by
  unfold rollVar
  rw [validObs_replicate w n i c h1 h2]
  simp only [List.length_replicate, List.sum_replicate, nsmul_eq_mul]
  rw [if_neg (by omega)]
  have hm : ((i + 1 : ℕ) : ℚ) * c / ((i + 1 : ℕ) : ℚ) = c :=
    mul_div_cancel_left₀ _ (by exact_mod_cast Nat.succ_ne_zero i)
  rw [List.map_replicate, hm, sub_self, pow_two, mul_zero, List.sum_replicate,
    smul_zero, zero_div]

/-- With at most one observation the sample standard deviation (`ddof=1`)
is undefined: the very first point of every series has variance `nan`. -/
theorem rollVar_first (w : ℕ) (xs : List Fl) : rollVar w xs 0 = Fl.nan := by
  unfold rollVar
  rw [if_pos]
  have h1 : (validObs w xs 0).length ≤ (windowSlice w xs 0).length :=
    List.length_filterMap_le _ _
  have h2 : (windowSlice w xs 0).length ≤ 1 := by
    unfold windowSlice
    rw [List.length_drop, List.length_take]
    omega
  omega

theorem zscore_nan_of_var_nan {w i : ℕ} {xs : List Fl}
    (h : rollVar w xs i = Fl.nan) : zscoreAt w xs i = Zsc.nan := by
  unfold zscoreAt
  rw [h]
  cases xs.getD i Fl.nan <;> cases rollMean w xs i <;> simp

theorem anomaly_false_of_zscore_nan {w i : ℕ} {t : ℚ} {xs : List Fl}
    (h : zscoreAt w xs i = Zsc.nan) : anomalyAt w t xs i = false := by
  unfold anomalyAt
  rw [h]

/-- C6: a point whose rolling standard deviation is exactly zero (zero
sample variance) has an undefined z-score (`.replace(0, np.nan)` makes the
denominator `nan`) and is never flagged; and on a perfectly constant series
with `window ≥ length` no point is ever flagged (the first point has `nan`
variance, every later point has zero variance). -/
theorem C6_zero_variance_never_flagged :
    (∀ (window : ℕ) (threshold : ℚ) (xs : List Fl) (i : ℕ),
        rollVar window xs i = Fl.num 0 →
          zscoreAt window xs i = Zsc.nan ∧
            anomalyAt window threshold xs i = false) ∧
    (∀ (c : ℚ) (n window : ℕ) (threshold : ℚ) (i : ℕ), n ≤ window → i < n →
        anomalyAt window threshold (List.replicate n (Fl.num c)) i = false) := by
  have hzero : ∀ (w : ℕ) (t : ℚ) (xs : List Fl) (i : ℕ),
      rollVar w xs i = Fl.num 0 →
        zscoreAt w xs i = Zsc.nan ∧ anomalyAt w t xs i = false := by
    intro w t xs i h
    have hz : zscoreAt w xs i = Zsc.nan := by
      unfold zscoreAt
      rw [h]
      cases xs.getD i Fl.nan <;> cases rollMean w xs i <;> simp
    exact ⟨hz, anomaly_false_of_zscore_nan hz⟩
  refine ⟨hzero, ?_⟩
  intro c n w t i hw hi
  match i with
  | 0 =>
    exact anomaly_false_of_zscore_nan (zscore_nan_of_var_nan (rollVar_first w _))
  | (j + 1) =>
    exact (hzero w t _ (j + 1) (rollVar_const w n (j + 1) c (by omega) hi hw)).2

unseal Rat.mul Rat.add Rat.sub Rat.inv Rat.ofScientific in
theorem C6_witness :
    rollVar 7 [Fl.num 5, Fl.num 5] 1 = Fl.num 0 ∧
      zscoreAt 7 [Fl.num 5, Fl.num 5] 1 = Zsc.nan ∧
      anomalyAt 7 2 [Fl.num 5, Fl.num 5] 1 = false ∧
      anomalyAt 7 2 (List.replicate 3 (Fl.num 4)) 1 = false :=
  ⟨by decide,
    (C6_zero_variance_never_flagged.1 7 2 [Fl.num 5, Fl.num 5] 1 (by decide)).1,
    (C6_zero_variance_never_flagged.1 7 2 [Fl.num 5, Fl.num 5] 1 (by decide)).2,
    C6_zero_variance_never_flagged.2 4 3 7 2 1 (by decide) (by decide)⟩

/-- C9 (amended): the rolling mean (min_periods=1) is defined at every
point of an all-numeric series, but the rolling standard deviation is the
sample deviation (`ddof=1`) and is therefore undefined (`nan`) at the first
point of every series; it is defined from the second point on whenever the
window holds at least two points. -/
theorem C9_amended (q : List ℚ) (window i : ℕ) (hw : 1 ≤ window)
    (hi : i < q.length) :
    rollMean window (q.map Fl.num) i ≠ Fl.nan ∧
    rollVar window (q.map Fl.num) 0 = Fl.nan ∧
    (2 ≤ window → 1 ≤ i → rollVar window (q.map Fl.num) i ≠ Fl.nan) := by
  have hlen : (validObs window (q.map Fl.num) i).length
      = min (i + 1) q.length - (i + 1 - window) := by
    unfold validObs windowSlice
    rw [← List.map_take, ← List.map_drop, filterMap_toNum_map_num, List.length_drop,
      List.length_take]
  refine ⟨?_, rollVar_first window _, ?_⟩
  · unfold rollMean
    rw [if_neg]
    · intro h
      cases h
    · rw [hlen]
      omega
  · intro h2 h1
    unfold rollVar
    rw [if_neg]
    · intro h
      cases h
    · rw [hlen]
      omega

unseal Rat.mul Rat.add Rat.sub Rat.inv Rat.ofScientific in
theorem C9_counterexample :
    rollVar 7 (([1, 2, 3] : List ℚ).map Fl.num) 0 = Fl.nan ∧
      rollMean 7 (([1, 2, 3] : List ℚ).map Fl.num) 0 = Fl.num 1 := by
  exact ⟨by decide, by decide⟩

unseal Rat.mul Rat.add Rat.sub Rat.inv Rat.ofScientific in
theorem C9_witness :
    rollMean 7 (([1, 2, 3] : List ℚ).map Fl.num) 2 ≠ Fl.nan ∧
      rollVar 7 (([1, 2, 3] : List ℚ).map Fl.num) 0 = Fl.nan ∧
      rollVar 7 (([1, 2, 3] : List ℚ).map Fl.num) 2 ≠ Fl.nan := by
  have h := C9_amended [1, 2, 3] 7 2 (by decide) (by decide)
  exact ⟨h.1, h.2.1, h.2.2 (by decide) (by decide)⟩

theorem toPDF_cols (rows : List FullRow) : (toPDF rows).cols = requiredCols := rfl

theorem no_missing_requiredCols :
    requiredCols.filter (fun c => ! requiredCols.contains c) = [] := by decide

unseal Rat.mul Rat.add Rat.sub Rat.inv Rat.ofScientific in
theorem flSum_six_zeros :
    flSum [Fl.num 0, Fl.num 0, Fl.num 0, Fl.num 0, Fl.num 0, Fl.num 0] = Fl.num 0 := by
  decide

unseal Rat.mul Rat.add Rat.sub Rat.inv Rat.ofScientific in
theorem flSum_three_zeros : flSum [Fl.num 0, Fl.num 0, Fl.num 0] = Fl.num 0 := by
  decide

unseal Rat.mul Rat.add Rat.sub Rat.inv Rat.ofScientific in
theorem flSum_four_zeros :
    flSum [Fl.num 0, Fl.num 0, Fl.num 0, Fl.num 0] = Fl.num 0 := by
  decide

unseal Rat.mul Rat.add Rat.sub Rat.inv Rat.ofScientific in
theorem flIsClose_zero_zero : flIsClose (Fl.num 0) (Fl.num 0) 0 0 = true := by
  decide

set_option maxHeartbeats 3200000 in
/-- A single generated cell whose counts are all zero (and whose derived
columns are accordingly `nan`, or a zero `report_rate`) passes every
validator check: helper for C4. -/
theorem run_checks_single_zero (row : FullRow) (eps tol : ℚ)
    (hau : 0 ≤ row.active_users) (hcc : 0 ≤ row.content_created)
    (hrep : row.reports = 0) (henf : row.enforcements = 0)
    (happ : row.appeals = 0) (hsuc : row.successful_appeals = 0)
    (h1 : row.reports_spam = 0) (h2 : row.reports_harassment_hate = 0)
    (h3 : row.reports_nudity = 0) (h4 : row.reports_misinformation = 0)
    (h5 : row.reports_child_safety = 0) (h6 : row.reports_other = 0)
    (u1 : row.reports_user = 0) (u2 : row.reports_ai = 0) (u3 : row.reports_trusted = 0)
    (e1 : row.enf_removed = 0) (e2 : row.enf_warning = 0)
    (e3 : row.enf_suspension = 0) (e4 : row.enf_downrank = 0)
    (hrt1 : 6 ≤ row.median_response_time_hours)
    (hrt2 : row.median_response_time_hours ≤ 36)
    (hrr : row.report_rate = Fl.nan ∨ row.report_rate = Fl.num 0)
    (her : row.enforcement_rate = Fl.nan) (har : row.appeal_rate = Fl.nan)
    (hasr : row.appeal_success_rate = Fl.nan)
    (m1 : row.share_spam = Fl.nan) (m2 : row.share_harassment_hate = Fl.nan)
    (m3 : row.share_nudity = Fl.nan) (m4 : row.share_misinformation = Fl.nan)
    (m5 : row.share_child_safety = Fl.nan) (m6 : row.share_other = Fl.nan)
    (m7 : row.share_user = Fl.nan) (m8 : row.share_ai = Fl.nan)
    (m9 : row.share_trusted = Fl.nan) :
    run_checks (toPDF [row]) eps tol = [] := by
  have gau : ¬ ((row.active_users : ℚ) < 0) := not_lt.mpr (by exact_mod_cast hau)
  have gcc : ¬ ((row.content_created : ℚ) < 0) := not_lt.mpr (by exact_mod_cast hcc)
  have grt1 : (0 : ℚ) ≤ row.median_response_time_hours := by linarith
  have grt2 : row.median_response_time_hours ≤ 48 := by linarith
  rcases hrr with hrr | hrr <;>
  · simp only [run_checks, toPDF_cols, no_missing_requiredCols, ne_eq,
      eq_self_iff_true, not_true, if_false]
    simp only [toPDF, fullRowCell, PDF.at, PVal.toFl, rowIdx, Fl.ltQ, Fl.between,
      Fl.gt, Fl.gtQ, Fl.isNan, Fl.toNum, flIsClose_zero_zero,
      flSum_six_zeros, flSum_three_zeros, flSum_four_zeros,
      countColsCore, countColsCat, countColsSrc, countColsEnf,
      rateCols, shareColsCat, shareColsSrc,
      hrep, henf, happ, hsuc, h1, h2, h3, h4, h5, h6, u1, u2, u3,
      e1, e2, e3, e4, her, har, hasr, m1, m2, m3, m4, m5, m6, m7, m8, m9, hrr,
      gau, gcc, grt1, grt2, hrt1, hrt2,
      List.range_succ, List.range_zero, List.length_cons, List.length_nil,
      List.getD_cons_zero, List.countP_cons, List.countP_nil,
      List.filter_cons, List.filter_nil, List.any_cons, List.any_nil,
      List.map_cons, List.map_nil, List.flatMap_cons, List.flatMap_nil,
      List.cons_append, List.nil_append, List.append_nil, List.cons_ne_nil,
      Nat.cast_zero, Int.cast_zero, Nat.zero_add, Nat.add_zero,
      decide_True, decide_False, Bool.not_true, Bool.not_false, Bool.and_true,
      Bool.and_false, Bool.true_and, Bool.false_and, Bool.or_true, Bool.or_false,
      Bool.false_or, Bool.true_or, Bool.not_or, Bool.and_self,
      lt_self_iff_false, le_refl, zero_le_one,
      ne_eq, not_true, not_false_eq_true, if_true, if_false, and_self, and_true,
      true_and, eq_self_iff_true, ite_true, ite_false,
      Bool.false_eq_true, Bool.true_eq_false, and_false, false_and,
      not_false_iff, or_false, false_or]

/-- C4 (amended): a generated cell with `reports == 0` (from a
configuration with nonnegative user bases) has `nan` (undefined)
enforcement/appeal/appeal-success rates and `nan` in all nine share
columns; its `report_rate`, however, is the defined value `0.0` whenever
`content_created ≠ 0` (it is `nan` only in the `0/0` case
`content_created = 0`); and the validator returns no finding for the
single-row table of such a cell. -/
theorem C4_amended (cfg : GenConfig) (r : Rng) (row : FullRow) (eps tol : ℚ)
    (hbase : ∀ c, 0 ≤ cfg.baseUsers c)
    (hmem : row ∈ generate_dataframe cfg r) (hrep : row.reports = 0) :
    row.enforcement_rate = Fl.nan ∧ row.appeal_rate = Fl.nan ∧
    row.appeal_success_rate = Fl.nan ∧
    row.share_spam = Fl.nan ∧ row.share_harassment_hate = Fl.nan ∧
    row.share_nudity = Fl.nan ∧ row.share_misinformation = Fl.nan ∧
    row.share_child_safety = Fl.nan ∧ row.share_other = Fl.nan ∧
    row.share_user = Fl.nan ∧ row.share_ai = Fl.nan ∧ row.share_trusted = Fl.nan ∧
    row.report_rate = (if row.content_created = 0 then Fl.nan else Fl.num 0) ∧
    run_checks (toPDF [row]) eps tol = [] := by
  obtain ⟨raw, d, baseResp, c, r2, hrow, hraw⟩ := generate_mem cfg r row hmem
  obtain ⟨g1, g2, g3, g4, g5, g6, g7, g8, g9, g10⟩ :=
    genCell_spec cfg d baseResp (adjust_category_mix cfg d) c r2 raw
      (adjust_category_mix_length cfg d) hraw
  obtain ⟨hu0, hc0⟩ := g10 (hbase c)
  subst hrow
  have hr0 : raw.reports = 0 := hrep
  have henf0 : raw.enforcements = 0 := by omega
  have happ0 : raw.appeals = 0 := by omega
  have hsuc0 : raw.successful_appeals = 0 := by omega
  have hc1 : raw.reports_spam = 0 := by omega
  have hc2 : raw.reports_harassment_hate = 0 := by omega
  have hc3 : raw.reports_nudity = 0 := by omega
  have hc4 : raw.reports_misinformation = 0 := by omega
  have hc5 : raw.reports_child_safety = 0 := by omega
  have hc6 : raw.reports_other = 0 := by omega
  have hs1 : raw.reports_user = 0 := by omega
  have hs2 : raw.reports_ai = 0 := by omega
  have hs3 : raw.reports_trusted = 0 := by omega
  have ht1 : raw.enf_removed = 0 := by omega
  have ht2 : raw.enf_warning = 0 := by omega
  have ht3 : raw.enf_suspension = 0 := by omega
  have ht4 : raw.enf_downrank = 0 := by omega
  have hrq : ((raw.reports : ℕ) : ℚ) = 0 := by rw [hr0]; norm_num
  have henfq : ((raw.enforcements : ℕ) : ℚ) = 0 := by rw [henf0]; norm_num
  have happq : ((raw.appeals : ℕ) : ℚ) = 0 := by rw [happ0]; norm_num
  have her : (addDerived raw).enforcement_rate = Fl.nan := by
    show fldivRepl (raw.enforcements : ℚ) (raw.reports : ℚ) = Fl.nan
    rw [hrq]
    simp [fldivRepl]
  have har : (addDerived raw).appeal_rate = Fl.nan := by
    show fldivRepl (raw.appeals : ℚ) (raw.enforcements : ℚ) = Fl.nan
    rw [henfq]
    simp [fldivRepl]
  have hasr : (addDerived raw).appeal_success_rate = Fl.nan := by
    show fldivRepl (raw.successful_appeals : ℚ) (raw.appeals : ℚ) = Fl.nan
    rw [happq]
    simp [fldivRepl]
  have hshare : ∀ x : ℕ, fldivRepl (x : ℚ) (raw.reports : ℚ) = Fl.nan := by
    intro x
    rw [hrq]
    simp [fldivRepl]
  have hrr2 : (addDerived raw).report_rate
      = (if (addDerived raw).content_created = 0 then Fl.nan else Fl.num 0) := by
    show fldiv (raw.reports : ℚ) (raw.content_created : ℚ)
      = (if raw.content_created = 0 then Fl.nan else Fl.num 0)
    rw [hrq]
    by_cases hcc2 : raw.content_created = 0
    · rw [if_pos hcc2, hcc2]
      simp [fldiv]
    · rw [if_neg hcc2]
      have hne : ((raw.content_created : ℤ) : ℚ) ≠ 0 := by exact_mod_cast hcc2
      simp [fldiv, hne]
  have hrrOr : (addDerived raw).report_rate = Fl.nan ∨
      (addDerived raw).report_rate = Fl.num 0 := by
    rw [hrr2]
    by_cases hcc2 : (addDerived raw).content_created = 0
    · rw [if_pos hcc2]
      exact Or.inl rfl
    · rw [if_neg hcc2]
      exact Or.inr rfl
  refine ⟨her, har, hasr, hshare raw.reports_spam, hshare raw.reports_harassment_hate,
    hshare raw.reports_nudity, hshare raw.reports_misinformation,
    hshare raw.reports_child_safety, hshare raw.reports_other,
    hshare raw.reports_user, hshare raw.reports_ai, hshare raw.reports_trusted,
    hrr2, ?_⟩
  exact run_checks_single_zero (addDerived raw) eps tol hu0 hc0 hr0 henf0 happ0
    hsuc0 hc1 hc2 hc3 hc4 hc5 hc6 hs1 hs2 hs3 ht1 ht2 ht3 ht4 g7 g8 hrrOr
    her har hasr (hshare raw.reports_spam) (hshare raw.reports_harassment_hate)
    (hshare raw.reports_nudity) (hshare raw.reports_misinformation)
    (hshare raw.reports_child_safety) (hshare raw.reports_other)
    (hshare raw.reports_user) (hshare raw.reports_ai) (hshare raw.reports_trusted)

unseal Rat.mul Rat.add Rat.sub Rat.inv Rat.ofScientific in
theorem C4_counterexample :
    rowSmall ∈ generate_dataframe cfgSmall (Rng.ofSeed 0) ∧
      rowSmall.reports = 0 ∧ rowSmall.content_created = 4 ∧
      rowSmall.report_rate = Fl.num 0 ∧ Fl.num 0 ≠ Fl.nan := by
  refine ⟨by decide, by decide, by decide, by decide, by decide⟩

unseal Rat.mul Rat.add Rat.sub Rat.inv Rat.ofScientific in
theorem C4_witness :
    rowSmall ∈ generate_dataframe cfgSmall (Rng.ofSeed 0) ∧ rowSmall.reports = 0 ∧
      rowSmall.enforcement_rate = Fl.nan ∧ rowSmall.share_spam = Fl.nan ∧
      rowSmall.report_rate = (if rowSmall.content_created = 0 then Fl.nan else Fl.num 0) ∧
      run_checks (toPDF [rowSmall]) 0.000001 0.02 = [] := by
  have h := C4_amended cfgSmall (Rng.ofSeed 0) rowSmall 0.000001 0.02
    (fun _ => show (0 : ℤ) ≤ 100 by norm_num) (by decide) (by decide)
  exact ⟨by decide, by decide, h.1, h.2.2.2.1, h.2.2.2.2.2.2.2.2.2.2.2.2.1,
    h.2.2.2.2.2.2.2.2.2.2.2.2.2⟩

theorem dedupFirstAux_spec :
    ∀ (l seen : List String),
      (dedupFirstAux seen l).Nodup ∧
        ∀ x ∈ dedupFirstAux seen l, x ∉ seen ∧ x ∈ l := by
  intro l
  induction l with
  | nil =>
    intro seen
    exact ⟨List.nodup_nil, by simp [dedupFirstAux]⟩
  | cons x xs ih =>
    intro seen
    by_cases hx : x ∈ seen
    · simp only [dedupFirstAux, if_pos hx]
      refine ⟨(ih seen).1, ?_⟩
      intro y hy
      obtain ⟨hy1, hy2⟩ := (ih seen).2 y hy
      exact ⟨hy1, List.mem_cons_of_mem x hy2⟩
    · simp only [dedupFirstAux, if_neg hx]
      have ihx := ih (x :: seen)
      constructor
      · refine List.nodup_cons.mpr ⟨?_, ihx.1⟩
        intro hmem
        exact (ihx.2 x hmem).1 (List.mem_cons_self x seen)
      · intro y hy
        rcases List.mem_cons.mp hy with rfl | hy2
        · exact ⟨hx, List.mem_cons_self y xs⟩
        · obtain ⟨hy1, hy3⟩ := ihx.2 y hy2
          exact ⟨fun hs => hy1 (List.mem_cons_of_mem x hs), List.mem_cons_of_mem x hy3⟩

theorem uniqueCountries_nodup (df : ADF) : (uniqueCountries df).Nodup := by
  unfold uniqueCountries
  exact (dedupFirstAux_spec _ _).1

theorem countP_flatMap {α β : Type} (l : List α) (f : α → List β) (p : β → Bool) :
    (l.flatMap f).countP p = (l.map (fun a => (f a).countP p)).sum := by
  induction l with
  | nil => rfl
  | cons a l ih => simp [List.flatMap_cons, List.countP_append, ih]

theorem map_sum_single {α : Type} {l : List α} {g : α → ℕ} {a : α}
    (hnd : l.Nodup) (ha : a ∈ l) (hz : ∀ b ∈ l, b ≠ a → g b = 0) :
    (l.map g).sum = g a := by
  induction l with
  | nil => cases ha
  | cons x xs ih =>
    rw [List.map_cons, List.sum_cons]
    rcases List.mem_cons.mp ha with rfl | ha2
    · have hrest : (xs.map g).sum = 0 := by
        refine List.sum_eq_zero ?_
        intro y hy
        obtain ⟨b, hb, rfl⟩ := List.mem_map.mp hy
        refine hz b (List.mem_cons_of_mem _ hb) ?_
        intro hba
        subst hba
        exact (List.nodup_cons.mp hnd).1 hb
      rw [hrest, Nat.add_zero]
    · have hx0 : g x = 0 := by
        refine hz x (List.mem_cons_self _ _) ?_
        intro hxa
        subst hxa
        exact (List.nodup_cons.mp hnd).1 ha2
      rw [hx0, Nat.zero_add]
      exact ih (List.nodup_cons.mp hnd).2 ha2
        (fun b hb hba => hz b (List.mem_cons_of_mem _ hb) hba)

theorem zrowsAux_mem (w : ℕ) (t : ℚ) (c m : String) (series : List Fl) :
    ∀ (s : List ARow) (i : ℕ) (a : AnomRow), a ∈ zrowsAux w t c m series s i →
      a.country = c ∧ a.metric = m := by
  intro s
  induction s with
  | nil =>
    intro i a h
    cases h
  | cons row rest ih =>
    intro i a h
    rcases List.mem_cons.mp h with rfl | h2
    · exact ⟨rfl, rfl⟩
    · exact ih (i + 1) a h2

theorem zrowsAux_countP (w : ℕ) (t : ℚ) (c m : String) (series : List Fl)
    (p : AnomRow → Bool) (q : ARow → Bool)
    (hp : ∀ (i : ℕ) (row : ARow),
      p { value := series.getD i Fl.nan, zscore := zscoreAt w series i,
          anomaly := anomalyAt w t series i, country := c, date := row.date,
          metric := m } = q row) :
    ∀ (s : List ARow) (i : ℕ),
      (zrowsAux w t c m series s i).countP p = s.countP q := by
  intro s
  induction s with
  | nil => intro i; rfl
  | cons row rest ih =>
    intro i
    simp only [zrowsAux]
    rw [List.countP_cons, List.countP_cons, hp i row, ih (i + 1)]

theorem metricCols_nodup (df : ADF) : (metricCols df).Nodup := by
  unfold metricCols
  by_cases hA : "share_misinformation" ∈ df.cols <;>
    by_cases hB : "share_child_safety" ∈ df.cols <;>
      by_cases hC : "share_user" ∈ df.cols <;>
        simp [hA, hB, hC]

theorem countryBlock_mem (df : ADF) (w : ℕ) (t : ℚ) (c : String) :
    ∀ a ∈ countryBlock df w t c, a.country = c ∧ a.metric ∈ metricCols df := by
  intro a ha
  unfold countryBlock at ha
  rw [List.mem_flatMap] at ha
  obtain ⟨m, hm, hmem⟩ := ha
  obtain ⟨h1, h2⟩ := zrowsAux_mem w t c m _ _ 0 a hmem
  exact ⟨h1, h2 ▸ hm⟩

theorem countryBlock_countP (df : ADF) (w : ℕ) (t : ℚ) (c m : String) (d : ℤ)
    (hm : m ∈ metricCols df) :
    (countryBlock df w t c).countP (fun a => decide (a.metric = m ∧ a.date = d))
      = df.rows.countP (fun row => decide (row.country = c ∧ row.date = d)) := by
  unfold countryBlock
  rw [countP_flatMap]
  rw [map_sum_single (metricCols_nodup df) hm ?_]
  · rw [zrowsAux_countP w t c m _ _ (fun row => decide (row.date = d))
      (fun i row => by simp) _ 0]
    have hperm := List.perm_insertionSort (fun a b : ARow => a.date ≤ b.date)
      (df.rows.filter (fun row => row.country = c))
    rw [hperm.countP_eq, List.countP_filter]
    refine List.countP_congr ?_
    intro row _
    simp [Bool.and_comm]
  · intro m2 hm2 hne
    rw [List.countP_eq_zero]
    intro a ha
    obtain ⟨_, hmet⟩ := zrowsAux_mem w t c m2 _ _ 0 a ha
    simp [hmet, hne]

/-- C7 (amended): the Detector output has exactly one row per
(country, date, metric) processed — for each country of the table and each
processed metric, the number of output rows keyed (country, date, metric)
equals the number of input rows keyed (country, date) — but its columns are
{value, zscore, anomaly, country, date, metric}: the rolling mean and the
rolling standard deviation are internal to the z-score computation and are
not columns of the output table. -/
theorem C7_one_row_per_key (df : ADF) (window : ℕ) (threshold : ℚ)
    (c m : String) (d : ℤ) (cols : List String) (rows : List AnomRow)
    (hout : detect_anomalies df window threshold = some (cols, rows))
    (hc : c ∈ uniqueCountries df) (hm : m ∈ metricCols df) :
    cols = ["value", "zscore", "anomaly", "country", "date", "metric"] ∧
    rows.countP (fun a => decide (a.country = c ∧ a.metric = m ∧ a.date = d))
      = df.rows.countP (fun row => decide (row.country = c ∧ row.date = d)) := by
  unfold detect_anomalies at hout
  by_cases he : df.rows.isEmpty
  · rw [if_pos he] at hout
    cases hout
  · rw [if_neg he] at hout
    simp only [Option.some.injEq, Prod.mk.injEq] at hout
    obtain ⟨hcols, hrows⟩ := hout
    refine ⟨hcols.symm, ?_⟩
    rw [← hrows]
    unfold detectRows
    rw [countP_flatMap]
    rw [map_sum_single (uniqueCountries_nodup df) hc ?_]
    · rw [List.countP_congr (q :=
        fun a => decide (a.metric = m ∧ a.date = d)) ?_]
      · exact countryBlock_countP df window threshold c m d hm
      · intro a ha
        have := (countryBlock_mem df window threshold c a ha).1
        simp [this]
    · intro c2 hc2 hne
      rw [List.countP_eq_zero]
      intro a ha
      have := (countryBlock_mem df window threshold c2 a ha).1
      simp [this, hne]

def arowA : ARow := { country := "X", date := 1, get := fun _ => Fl.num 3 }

def arowB : ARow := { country := "X", date := 2, get := fun _ => Fl.num 4 }

/-- A two-row, one-country detector input with all processed metric columns
present. -/
def dfEx : ADF :=
  { cols := ["country", "date", "reports", "share_misinformation",
      "share_child_safety", "share_user"],
    rows := [arowA, arowB] }

unseal Rat.mul Rat.add Rat.sub Rat.inv Rat.ofScientific in
theorem C7_counterexample :
    (detect_anomalies dfEx 7 2).map (fun o => o.1.contains "rolling_mean")
        = some false ∧
      (detect_anomalies dfEx 7 2).map (fun o => o.1.contains "rolling_std")
        = some false := by
  exact ⟨by decide, by decide⟩

unseal Rat.mul Rat.add Rat.sub Rat.inv Rat.ofScientific in
theorem C7_witness :
    anomOutCols = ["value", "zscore", "anomaly", "country", "date", "metric"] ∧
      (detectRows dfEx 7 2).countP
          (fun a => decide (a.country = "X" ∧ a.metric = "reports" ∧ a.date = 1))
        = dfEx.rows.countP (fun row => decide (row.country = "X" ∧ row.date = 1)) := by
  have h := C7_one_row_per_key dfEx 7 2 "X" "reports" 1 anomOutCols
    (detectRows dfEx 7 2) rfl (by decide) (by decide)
  exact ⟨h.1, h.2⟩
